import Mathlib

/-!
Shallow embedding of the simulation core of the Snake2D-Rust repository,
together with theorems settling the claims C1 to C10.

Conventions of the embedding:
- Rust f32 quantities (timers, accumulators, progress scalars) are modelled
  as rationals; no float-specific behaviour (rounding, NaN) is relied on by
  any of the code paths under verification.
- Rust usize / u32 are modelled as Nat, i32 as Int.
- rand::Rng draws are modelled by explicit parameters: a weighted-selection
  roll is a Nat, the position samples of a spawn attempt are an explicit
  list, and the random draws of the lucky consumable are a record.
- Purely cosmetic state (particles, colors, afterimages, sounds) is owned by
  the excluded rendering and audio collaborators and is not carried.
- The repository declares a constants module that is absent from the
  source snapshot; the numeric values used below are the ones recorded in
  backup/snake2d.rs and in the comments of snake2d_v2.rs.
-/

namespace Snake2D

/-- Grid width in cells, from backup/snake2d.rs (GRID_W = 32). -/
def GRID_W : Int := 32

/-- Grid height in cells, from backup/snake2d.rs (GRID_H = 24). -/
def GRID_H : Int := 24

/-- Cell size in pixels, from backup/snake2d.rs (CELL = 20.0). -/
def CELL : ℚ := 20

/-- Integer 2-vector, mirroring macroquad IVec2 as used by the game. -/
structure IVec2 where
  x : Int
  y : Int
deriving DecidableEq, Repr

instance : Inhabited IVec2 := ⟨⟨0, 0⟩⟩

/-- Constructor helper mirroring the ivec2 function. -/
def ivec2 (x y : Int) : IVec2 := ⟨x, y⟩

/-- Componentwise addition of grid vectors. -/
def IVec2.add (a b : IVec2) : IVec2 := ⟨a.x + b.x, a.y + b.y⟩

/-- Position lies inside the playing grid. -/
def inGrid (p : IVec2) : Prop :=
  0 ≤ p.x ∧ p.x < GRID_W ∧ 0 ≤ p.y ∧ p.y < GRID_H

instance (p : IVec2) : Decidable (inGrid p) := by
  unfold inGrid; infer_instance

/-- Top-level game state, from src/types/game_state.rs.  The enum has
exactly the three variants Playing, Paused and GameOver. -/
inductive GameState where
  | Playing
  | Paused
  | GameOver
deriving DecidableEq, Repr

/-- Result of a player move, from src/game/snake.rs. -/
inductive MoveResult where
  | Normal (pos : IVec2)
  | WallCollision
  | SelfCollision
deriving DecidableEq, Repr

/-- Player snake state, from src/game/snake.rs. -/
structure Snake where
  body : List IVec2
  dir : IVec2
  prev_body : List IVec2
deriving DecidableEq, Repr

/-- Snake::new — three segments at the grid center, heading right. -/
def Snake.new : Snake :=
  let body := [ivec2 (GRID_W / 2) (GRID_H / 2),
               ivec2 (GRID_W / 2 - 1) (GRID_H / 2),
               ivec2 (GRID_W / 2 - 2) (GRID_H / 2)]
  { body := body, dir := ivec2 1 0, prev_body := body }

/-- Snake::head — body[0]. -/
def Snake.headPos (s : Snake) : IVec2 := s.body.headD ⟨0, 0⟩

/-- The sequential single-step boundary clamps of Snake::move_forward:
if the coordinate is below 0 it becomes limit - 1, then if it is at or
above the limit it becomes 0. -/
def clampWrap (n limit : Int) : Int :=
  let a := if n < 0 then limit - 1 else n
  if limit ≤ a then 0 else a

/-- Snake::move_forward, from src/game/snake.rs lines 138-171.  Saves the
previous body, computes the candidate head, applies boundary policy
(wrapping when wrap or can_pass_self holds, otherwise wall collision),
checks the candidate against the body with the head excluded
(iter().skip(1)), and on success inserts the new head and pops the tail. -/
def Snake.move_forward (s0 : Snake) (wrap can_pass_self : Bool) :
    Snake × MoveResult :=
  let s := { s0 with prev_body := s0.body }
  let head := s.headPos
  let nx := head.x + s.dir.x
  let ny := head.y + s.dir.y
  if can_pass_self || wrap then
    let new_head := ivec2 (clampWrap nx GRID_W) (clampWrap ny GRID_H)
    if can_pass_self = false ∧ new_head ∈ s.body.drop 1 then
      (s, MoveResult.SelfCollision)
    else
      ({ s with body := (new_head :: s.body).dropLast },
       MoveResult.Normal new_head)
  else
    if nx < 0 ∨ GRID_W ≤ nx ∨ ny < 0 ∨ GRID_H ≤ ny then
      (s, MoveResult.WallCollision)
    else
      let new_head := ivec2 nx ny
      if can_pass_self = false ∧ new_head ∈ s.body.drop 1 then
        (s, MoveResult.SelfCollision)
      else
        ({ s with body := (new_head :: s.body).dropLast },
         MoveResult.Normal new_head)

/-- Snake::grow — pushes a copy of the current tail segment. -/
def Snake.grow (s : Snake) : Snake :=
  match s.body.getLast? with
  | some tail => { s with body := s.body ++ [tail] }
  | none => s

/-- Sandworm transformation phase, from src/types/buff.rs. -/
inductive SandwormPhase where
  | None
  | Flashing
  | Transforming
  | Exiting
  | Filling
  | FilledFlashing
  | Consuming
deriving DecidableEq, Repr

/-- In-body bomb sub-state, from src/types/bomb.rs. -/
structure BombState where
  active : Bool
  position : Nat
  move_timer : ℚ
  move_interval : ℚ
deriving DecidableEq, Repr

/-- BombState::default — inactive with zeroed fields. -/
def BombState.init : BombState :=
  { active := false, position := 0, move_timer := 0, move_interval := 0 }

/-- BombState::activate — armed at the head with a 0.3 s move interval. -/
def BombState.activate (_b : BombState) : BombState :=
  { active := true, position := 0, move_timer := 0, move_interval := 3 / 10 }

/-- BombState::clear. -/
def BombState.clear (b : BombState) : BombState :=
  { b with active := false, position := 0, move_timer := 0 }

/-- BombState::should_explode — armed and at or past half the body length. -/
def BombState.should_explode (b : BombState) (snake_len : Nat) : Prop :=
  b.active = true ∧ snake_len / 2 ≤ b.position

instance (b : BombState) (n : Nat) : Decidable (b.should_explode n) := by
  unfold BombState.should_explode; infer_instance

/-- Bomb aftereffect sub-state, from src/types/bomb.rs. -/
structure BombAfterEffect where
  active : Bool
  timer : ℚ
  bleed_timer : ℚ
  no_grow : Bool
  torn_index : Nat
deriving DecidableEq, Repr

/-- BombAfterEffect::default. -/
def BombAfterEffect.init : BombAfterEffect :=
  { active := false, timer := 0, bleed_timer := 0, no_grow := false,
    torn_index := 0 }

/-- BombAfterEffect::activate — 20 s duration, growth permitted. -/
def BombAfterEffect.activate (_e : BombAfterEffect) (torn_index : Nat) :
    BombAfterEffect :=
  { active := true, timer := 20, bleed_timer := 0, no_grow := false,
    torn_index := torn_index }

/-- BombAfterEffect::clear. -/
def BombAfterEffect.clear (_e : BombAfterEffect) : BombAfterEffect :=
  { active := false, timer := 0, bleed_timer := 0, no_grow := false,
    torn_index := 0 }

/-- Buff state, from src/types/buff.rs.  The pixel-space collapse
animation data (center and per-segment positions) is carried as pairs of
rationals. -/
structure BuffState where
  shield_active : Bool
  shield_timer : ℚ
  sandworm_active : Bool
  sandworm_path : List IVec2
  sandworm_index : Nat
  sandworm_tick : ℚ
  sandworm_phase : SandwormPhase
  sandworm_phase_timer : ℚ
  sandworm_transform_index : Nat
  sandworm_original_snake : List IVec2
  sandworm_original_dir : IVec2
  sandworm_collapse_center : ℚ × ℚ
  sandworm_collapse_progress : ℚ
  sandworm_collapse_positions : List (ℚ × ℚ)
  sandworm_exit_dir : IVec2
  speed_active : Bool
  speed_timer : ℚ
  ghost_active : Bool
  ghost_timer : ℚ
  frozen : Bool
  freeze_timer : ℚ
  slow_active : Bool
  slow_timer : ℚ
  dizzy_active : Bool
  dizzy_timer : ℚ
  slime_active : Bool
  slime_timer : ℚ
  bomb_state : BombState
  bomb_after_effect : BombAfterEffect
  pending_ai_spawn : Bool
deriving DecidableEq, Repr

/-- BuffState::default, from src/types/buff.rs. -/
def BuffState.init : BuffState :=
  { shield_active := false, shield_timer := 0,
    sandworm_active := false, sandworm_path := [], sandworm_index := 0,
    sandworm_tick := 0, sandworm_phase := SandwormPhase.None,
    sandworm_phase_timer := 0, sandworm_transform_index := 0,
    sandworm_original_snake := [], sandworm_original_dir := ivec2 1 0,
    sandworm_collapse_center := (0, 0), sandworm_collapse_progress := 0,
    sandworm_collapse_positions := [], sandworm_exit_dir := ivec2 1 0,
    speed_active := false, speed_timer := 0,
    ghost_active := false, ghost_timer := 0,
    frozen := false, freeze_timer := 0,
    slow_active := false, slow_timer := 0,
    dizzy_active := false, dizzy_timer := 0,
    slime_active := false, slime_timer := 0,
    bomb_state := BombState.init, bomb_after_effect := BombAfterEffect.init,
    pending_ai_spawn := false }

/-- BuffState::has_immunity — shield or sandworm mode. -/
def BuffState.has_immunity (b : BuffState) : Bool :=
  b.shield_active || b.sandworm_active

/-- BuffState::can_pass_through — shield, sandworm or ghost. -/
def BuffState.can_pass_through (b : BuffState) : Bool :=
  b.shield_active || b.sandworm_active || b.ghost_active

/-- BuffState::tick_multiplier — speed halves, slow doubles, slime adds
half, composed multiplicatively. -/
def BuffState.tick_multiplier (b : BuffState) : ℚ :=
  let m : ℚ := 1
  let m := if b.speed_active then m * (1 / 2) else m
  let m := if b.slow_active then m * 2 else m
  if b.slime_active then m * (3 / 2) else m

/-- Timer decrement step shared by the seven effect pairs of
BuffState::update: subtract dt from the timer of an active effect and
clear both flag and timer when the result is at or below zero. -/
def decayPair (active : Bool) (timer dt : ℚ) : Bool × ℚ :=
  if active then
    let t := timer - dt
    if t ≤ 0 then (false, 0) else (true, t)
  else (active, timer)

/-- BuffState::update, from src/game/buff_manager.rs lines 11-82: decays
the seven effect timers and the bomb aftereffect timer. -/
def BuffState.update (b : BuffState) (dt : ℚ) : BuffState :=
  { b with
    shield_active := (decayPair b.shield_active b.shield_timer dt).1,
    shield_timer := (decayPair b.shield_active b.shield_timer dt).2,
    speed_active := (decayPair b.speed_active b.speed_timer dt).1,
    speed_timer := (decayPair b.speed_active b.speed_timer dt).2,
    ghost_active := (decayPair b.ghost_active b.ghost_timer dt).1,
    ghost_timer := (decayPair b.ghost_active b.ghost_timer dt).2,
    frozen := (decayPair b.frozen b.freeze_timer dt).1,
    freeze_timer := (decayPair b.frozen b.freeze_timer dt).2,
    slow_active := (decayPair b.slow_active b.slow_timer dt).1,
    slow_timer := (decayPair b.slow_active b.slow_timer dt).2,
    dizzy_active := (decayPair b.dizzy_active b.dizzy_timer dt).1,
    dizzy_timer := (decayPair b.dizzy_active b.dizzy_timer dt).2,
    slime_active := (decayPair b.slime_active b.slime_timer dt).1,
    slime_timer := (decayPair b.slime_active b.slime_timer dt).2,
    bomb_after_effect :=
      if b.bomb_after_effect.active then
        let t := b.bomb_after_effect.timer - dt
        if t ≤ 0 then b.bomb_after_effect.clear
        else { b.bomb_after_effect with timer := t }
      else b.bomb_after_effect }

/-- BuffState::update_bomb, from src/game/buff_manager.rs lines 86-105:
advance the in-body bomb by one segment per interval; return the
explosion index when it reaches half the body length. -/
def BuffState.update_bomb (b : BuffState) (dt : ℚ) (snake_len : Nat) :
    BuffState × Option Nat :=
  if b.bomb_state.active = false then (b, none)
  else
    let bs := { b.bomb_state with move_timer := b.bomb_state.move_timer + dt }
    if bs.move_interval ≤ bs.move_timer then
      let bs := { bs with move_timer := bs.move_timer - bs.move_interval,
                          position := bs.position + 1 }
      if bs.should_explode snake_len then
        ({ b with bomb_state := bs.clear }, some bs.position)
      else ({ b with bomb_state := bs }, none)
    else ({ b with bomb_state := bs }, none)

/-- Effect durations.  SHIELD_DURATION = 10.0 is recorded in
backup/snake2d.rs; the freeze duration of 2 s is recorded in the freeze
consumable documentation.  The remaining durations live in the absent
constants module; their exact values are irrelevant to every theorem
below, which only uses that the corresponding flag is set together with
the timer. -/
def SHIELD_DURATION : ℚ := 10

/-- Speed effect duration (absent constants module, see SHIELD_DURATION). -/
def SPEED_DURATION : ℚ := 8

/-- Ghost effect duration (absent constants module, see SHIELD_DURATION). -/
def GHOST_DURATION : ℚ := 8

/-- Freeze duration — 2 s per the freeze consumable documentation. -/
def FREEZE_DURATION : ℚ := 2

/-- Slow effect duration (absent constants module, see SHIELD_DURATION). -/
def SLOW_DURATION : ℚ := 5

/-- Dizzy effect duration (absent constants module, see SHIELD_DURATION). -/
def DIZZY_DURATION : ℚ := 5

/-- Slime effect duration (absent constants module, see SHIELD_DURATION). -/
def SLIME_DURATION : ℚ := 5

/-- BuffState::activate_shield — unconditional. -/
def BuffState.activate_shield (b : BuffState) : BuffState :=
  { b with shield_active := true, shield_timer := SHIELD_DURATION }

/-- BuffState::activate_speed — unconditional. -/
def BuffState.activate_speed (b : BuffState) : BuffState :=
  { b with speed_active := true, speed_timer := SPEED_DURATION }

/-- BuffState::activate_ghost — unconditional. -/
def BuffState.activate_ghost (b : BuffState) : BuffState :=
  { b with ghost_active := true, ghost_timer := GHOST_DURATION }

/-- BuffState::activate_freeze — gated on has_immunity. -/
def BuffState.activate_freeze (b : BuffState) : BuffState :=
  if b.has_immunity then b
  else { b with frozen := true, freeze_timer := FREEZE_DURATION }

/-- BuffState::activate_slow — gated on has_immunity. -/
def BuffState.activate_slow (b : BuffState) : BuffState :=
  if b.has_immunity then b
  else { b with slow_active := true, slow_timer := SLOW_DURATION }

/-- BuffState::activate_dizzy — gated on has_immunity. -/
def BuffState.activate_dizzy (b : BuffState) : BuffState :=
  if b.has_immunity then b
  else { b with dizzy_active := true, dizzy_timer := DIZZY_DURATION }

/-- BuffState::activate_slime — gated on has_immunity. -/
def BuffState.activate_slime (b : BuffState) : BuffState :=
  if b.has_immunity then b
  else { b with slime_active := true, slime_timer := SLIME_DURATION }

/-- BuffState::clear_all_debuffs, from src/types/buff.rs. -/
def BuffState.clear_all_debuffs (b : BuffState) : BuffState :=
  { b with frozen := false, freeze_timer := 0,
           slow_active := false, slow_timer := 0,
           dizzy_active := false, dizzy_timer := 0,
           slime_active := false, slime_timer := 0,
           bomb_state := b.bomb_state.clear,
           bomb_after_effect := b.bomb_after_effect.clear }

/-- Result of an autonomous snake move, from src/game/ai_snake.rs. -/
inductive AIMoveResult where
  | Normal (pos : IVec2)
  | WallCollision
  | SelfCollision
  | Frozen
deriving DecidableEq, Repr

/-- Autonomous snake, from src/game/ai_snake.rs (decision-timer, target
and cosmetic fields not used by movement are omitted). -/
structure AISnake where
  body : List IVec2
  prev_body : List IVec2
  dir : IVec2
  buff_state : BuffState
  grow_pending : Nat
deriving DecidableEq, Repr

/-- Body/growth core of AISnake::move_forward after boundary handling:
the candidate is checked against the body with the tail excluded
(take(len-1)); on success the head is inserted and either the pending
growth counter is decremented or the tail is popped. -/
def AISnake.moveCore (a : AISnake) (new_head : IVec2) :
    AISnake × AIMoveResult :=
  if new_head ∈ a.body.take (a.body.length - 1) then
    (a, AIMoveResult.SelfCollision)
  else
    let body := new_head :: a.body
    if 0 < a.grow_pending then
      ({ a with body := body, grow_pending := a.grow_pending - 1 },
       AIMoveResult.Normal new_head)
    else
      ({ a with body := body.dropLast }, AIMoveResult.Normal new_head)

/-- AISnake::move_forward, from src/game/ai_snake.rs lines 280-314:
frozen snakes do not move; boundary uses rem_euclid when wrapping and a
wall collision otherwise; then the core self-check and move. -/
def AISnake.move_forward (a0 : AISnake) (wrap : Bool) :
    AISnake × AIMoveResult :=
  if a0.buff_state.frozen then (a0, AIMoveResult.Frozen)
  else
    let a := { a0 with prev_body := a0.body }
    let nh := IVec2.add (a.body.headD ⟨0, 0⟩) a.dir
    if wrap then
      a.moveCore (ivec2 (nh.x.emod GRID_W) (nh.y.emod GRID_H))
    else if nh.x < 0 ∨ GRID_W ≤ nh.x ∨ nh.y < 0 ∨ GRID_H ≤ nh.y then
      (a, AIMoveResult.WallCollision)
    else
      a.moveCore nh

/-- Runtime consumable instance, from src/types/fruit.rs. -/
structure Fruit where
  pos : IVec2
  type_id : String
  spawn_time : ℚ
  lifetime : ℚ
deriving DecidableEq, Repr

/-- Sandworm exit/fill step interval, from backup/snake2d.rs (0.02 s). -/
def SANDWORM_TICK_INTERVAL : ℚ := 1 / 50

/-- Sandworm flash phase duration, from backup/snake2d.rs (1.5 s). -/
def SANDWORM_FLASH_DURATION : ℚ := 3 / 2

/-- Sandworm per-segment recolor interval, from backup/snake2d.rs (0.08 s). -/
def SANDWORM_TRANSFORM_INTERVAL : ℚ := 2 / 25

/-- Sandworm filled-flash duration, from backup/snake2d.rs (1.5 s). -/
def SANDWORM_FILLED_FLASH_DURATION : ℚ := 3 / 2

/-- Turn-priority candidate search of generate_fill_path: straight,
right turn, left turn, reverse, then any unvisited in-grid neighbor in
the order +x, -x, +y, -y.  Cells already pushed to the path double as
the visited set, since the source marks a cell visited exactly when it
pushes it. -/
def fillCandidate (pos dir : IVec2) (visited : List IVec2) :
    Option (IVec2 × IVec2) :=
  let tryDir := fun (d : IVec2) =>
    let n := IVec2.add pos d
    if inGrid n ∧ n ∉ visited then some (d, n) else none
  match tryDir dir with
  | some r => some r
  | none =>
    match tryDir (ivec2 (-dir.y) dir.x) with
    | some r => some r
    | none =>
      match tryDir (ivec2 dir.y (-dir.x)) with
      | some r => some r
      | none =>
        match tryDir (ivec2 (-dir.x) (-dir.y)) with
        | some r => some r
        | none =>
          match tryDir (ivec2 1 0) with
          | some r => some r
          | none =>
            match tryDir (ivec2 (-1) 0) with
            | some r => some r
            | none =>
              match tryDir (ivec2 0 1) with
              | some r => some r
              | none => tryDir (ivec2 0 (-1))

/-- Iteration core of generate_fill_path; the accumulator holds the path
in reverse and doubles as the visited set. -/
def fillGo : Nat → IVec2 → IVec2 → List IVec2 → List IVec2
  | 0, _, _, acc => acc.reverse
  | fuel + 1, pos, dir, acc =>
    let acc := if inGrid pos ∧ pos ∉ acc then pos :: acc else acc
    match fillCandidate pos dir acc with
    | some (d, n) => fillGo fuel n d acc
    | none => acc.reverse

/-- generate_fill_path, from src/game/sandworm_manager.rs lines 251-346:
greedy boustrophedon traversal over all GRID_W * GRID_H cells. -/
def generate_fill_path (start initial_dir : IVec2) : List IVec2 :=
  fillGo (GRID_W * GRID_H).toNat start initial_dir []

/-- Result record of update_sandworm_mode (SandwormUpdateResult together
with the state the Rust function mutates in place). -/
structure SandwormStep where
  snake : Snake
  buff : BuffState
  fruits : List Fruit
  food : IVec2
  need_respawn_food : Bool
  bonus_score : Nat
deriving DecidableEq, Repr

/-- update_sandworm_mode, from src/game/sandworm_manager.rs lines 34-248.
The particles it emits are cosmetic and omitted; the value produced by
spawn_food for the respawned food in the Consuming branch is passed in
as the RNG-dependent parameter freshFood. -/
def update_sandworm_mode (snake : Snake) (buff : BuffState)
    (fruits : List Fruit) (food : IVec2) (dt : ℚ) (freshFood : IVec2) :
    SandwormStep :=
  if buff.sandworm_phase = SandwormPhase.None then
    ⟨snake, buff, fruits, food, false, 0⟩
  else
    let buff := { buff with
      sandworm_phase_timer := buff.sandworm_phase_timer + dt }
    match buff.sandworm_phase with
    | SandwormPhase.None => ⟨snake, buff, fruits, food, false, 0⟩
    | SandwormPhase.Flashing =>
      if SANDWORM_FLASH_DURATION ≤ buff.sandworm_phase_timer then
        ⟨snake,
         { buff with sandworm_phase := SandwormPhase.Transforming,
                     sandworm_phase_timer := 0,
                     sandworm_transform_index := 0 },
         fruits, food, false, 0⟩
      else ⟨snake, buff, fruits, food, false, 0⟩
    | SandwormPhase.Transforming =>
      if SANDWORM_TRANSFORM_INTERVAL ≤ buff.sandworm_phase_timer then
        let buff := { buff with
                      sandworm_phase_timer := 0,
                      sandworm_transform_index :=
                        buff.sandworm_transform_index + 1 }
        if snake.body.length ≤ buff.sandworm_transform_index then
          let head := snake.headPos
          let to_left := head.x
          let to_right := GRID_W - 1 - head.x
          let to_top := head.y
          let to_bottom := GRID_H - 1 - head.y
          let min_dist := min (min to_left to_right) (min to_top to_bottom)
          let exit_dir :=
            if min_dist = to_left then ivec2 (-1) 0
            else if min_dist = to_right then ivec2 1 0
            else if min_dist = to_top then ivec2 0 (-1)
            else ivec2 0 1
          ⟨snake,
           { buff with sandworm_phase := SandwormPhase.Exiting,
                       sandworm_phase_timer := 0,
                       sandworm_exit_dir := exit_dir },
           fruits, food, false, 0⟩
        else ⟨snake, buff, fruits, food, false, 0⟩
      else ⟨snake, buff, fruits, food, false, 0⟩
    | SandwormPhase.Exiting =>
      let buff := { buff with sandworm_tick := buff.sandworm_tick + dt }
      if SANDWORM_TICK_INTERVAL ≤ buff.sandworm_tick then
        let buff := { buff with sandworm_tick := 0 }
        let new_head := IVec2.add snake.headPos buff.sandworm_exit_dir
        let snake := { snake with body := (new_head :: snake.body).dropLast }
        if ∀ seg ∈ snake.body,
            seg.x < 0 ∨ GRID_W ≤ seg.x ∨ seg.y < 0 ∨ GRID_H ≤ seg.y then
          let entry_dir := ivec2 (-buff.sandworm_exit_dir.x)
                                 (-buff.sandworm_exit_dir.y)
          let entry_pos :=
            if entry_dir.x = 1 then ivec2 0 (GRID_H / 2)
            else if entry_dir.x = -1 then ivec2 (GRID_W - 1) (GRID_H / 2)
            else if entry_dir.y = 1 then ivec2 (GRID_W / 2) 0
            else ivec2 (GRID_W / 2) (GRID_H - 1)
          let buff := { buff with
                        sandworm_phase := SandwormPhase.Filling,
                        sandworm_phase_timer := 0,
                        sandworm_path := generate_fill_path entry_pos entry_dir,
                        sandworm_index := 0 }
          ⟨{ snake with body := [entry_pos], dir := entry_dir },
           buff, fruits, food, false, 0⟩
        else ⟨snake, buff, fruits, food, false, 0⟩
      else ⟨snake, buff, fruits, food, false, 0⟩
    | SandwormPhase.Filling =>
      let buff := { buff with sandworm_tick := buff.sandworm_tick + dt }
      if SANDWORM_TICK_INTERVAL ≤ buff.sandworm_tick then
        let buff := { buff with sandworm_tick := 0 }
        if buff.sandworm_index < buff.sandworm_path.length then
          let next_pos := buff.sandworm_path.getD buff.sandworm_index ⟨0, 0⟩
          let snake := { snake with body := next_pos :: snake.body }
          let buff := { buff with sandworm_index := buff.sandworm_index + 1 }
          let eaten := (fruits.filter (fun f => f.pos = next_pos)).length
          let fruits := fruits.filter (fun f => ¬ f.pos = next_pos)
          if food = next_pos then
            ⟨snake, buff, fruits, ivec2 (-100) (-100), false, 5 * eaten + 1⟩
          else ⟨snake, buff, fruits, food, false, 5 * eaten⟩
        else
          ⟨snake,
           { buff with sandworm_phase := SandwormPhase.FilledFlashing,
                       sandworm_phase_timer := 0 },
           fruits, food, false, 0⟩
      else ⟨snake, buff, fruits, food, false, 0⟩
    | SandwormPhase.FilledFlashing =>
      if SANDWORM_FILLED_FLASH_DURATION ≤ buff.sandworm_phase_timer then
        let buff := { buff with
          sandworm_phase := SandwormPhase.Consuming,
          sandworm_phase_timer := 0,
          sandworm_collapse_progress := 0,
          sandworm_collapse_center :=
            ((GRID_W : ℚ) * CELL / 2, (GRID_H : ℚ) * CELL / 2),
          sandworm_collapse_positions := snake.body.map (fun seg =>
            ((seg.x : ℚ) * CELL + CELL / 2, (seg.y : ℚ) * CELL + CELL / 2)) }
        ⟨snake, buff, fruits, food, false, 0⟩
      else ⟨snake, buff, fruits, food, false, 0⟩
    | SandwormPhase.Consuming =>
      let buff := { buff with
        sandworm_collapse_progress :=
          buff.sandworm_collapse_progress + dt * (4 / 5) }
      if 1 ≤ buff.sandworm_collapse_progress then
        let snake := { snake with
                       body := buff.sandworm_original_snake,
                       dir := buff.sandworm_original_dir,
                       prev_body := buff.sandworm_original_snake }
        let buff := { buff with
                      sandworm_active := false,
                      sandworm_phase := SandwormPhase.None,
                      sandworm_path := [],
                      sandworm_original_snake := [],
                      sandworm_collapse_positions := [] }
        ⟨snake, buff, fruits, freshFood, true, 100⟩
      else ⟨snake, buff, fruits, food, false, 0⟩

/-- Slice of the top-level world aggregate touched by the
sandworm-update section of the main loop. -/
structure WorldSlice where
  state : GameState
  snake : Snake
  buff : BuffState
  fruits : List Fruit
  food : IVec2
  score : Nat
  game_time : ℚ
deriving DecidableEq, Repr

/-- Sandworm section of the per-frame system update, from
src/snake2d_v2.rs lines 584-597: only while Playing, advance game time,
run update_sandworm_mode, and add its bonus to the score.  No statement
in that section writes world.state. -/
def worldSandwormFrame (w : WorldSlice) (dt : ℚ) (freshFood : IVec2) :
    WorldSlice :=
  if w.state = GameState.Playing then
    let r := update_sandworm_mode w.snake w.buff w.fruits w.food dt freshFood
    { w with game_time := w.game_time + dt, snake := r.snake,
             buff := r.buff, fruits := r.fruits, food := r.food,
             score := w.score + r.bonus_score }
  else w

/-- BombManager update result, from src/game/bomb_manager.rs (particles
omitted). -/
structure BombUpdateResult where
  game_over : Bool
  truncate_to : Option Nat
deriving DecidableEq, Repr

/-- BombManager::update, from src/game/bomb_manager.rs lines 37-90:
advance the bomb; on explosion inside the body, arm the aftereffect at
the explosion index, request truncation there, and flag game over when
the index is below 3. -/
def BombManager.update (buff : BuffState) (snake_body : List IVec2)
    (dt : ℚ) : BuffState × BombUpdateResult :=
  let snake_len := snake_body.length
  match buff.update_bomb dt snake_len with
  | (b, some explode_pos) =>
    if explode_pos < snake_len then
      ({ b with bomb_after_effect :=
          b.bomb_after_effect.activate explode_pos },
       { game_over := decide (explode_pos < 3),
         truncate_to := some explode_pos })
    else (b, { game_over := false, truncate_to := none })
  | (b, none) => (b, { game_over := false, truncate_to := none })

/-- Slice of the world touched by the bomb section of the main loop. -/
structure BombFrame where
  state : GameState
  body : List IVec2
  buff : BuffState
deriving DecidableEq, Repr

/-- Bomb section of the per-frame system update, from src/snake2d_v2.rs
lines 613-630: run BombManager::update, apply the requested truncation,
and end the game when the result demands it or fewer than 3 segments
remain. -/
def bombMainStep (w : BombFrame) (dt : ℚ) : BombFrame :=
  match (BombManager.update w.buff w.body dt).2.truncate_to with
  | some p =>
    { state := if (BombManager.update w.buff w.body dt).2.game_over = true ∨
          (w.body.take p).length < 3
        then GameState.GameOver else w.state,
      body := w.body.take p,
      buff := (BombManager.update w.buff w.body dt).1 }
  | none => { w with buff := (BombManager.update w.buff w.body dt).1 }

/-- Consumable category, from src/fruits/fruit_trait.rs. -/
inductive FruitCategory where
  | Normal
  | Trap
  | Power
  | Special
deriving DecidableEq, Repr

/-- Static consumable configuration, from src/fruits/fruit_trait.rs
(display name and base color are presentation data and omitted). -/
structure FruitConfig where
  id : String
  category : FruitCategory
  lifetime : ℚ
  spawn_weight : Nat
  unlock_length : Nat
  immune_to_buffs : Bool
  weight_growth : Nat
deriving DecidableEq, Repr

/-- NormalFruit configuration, from src/fruits/normal/normal_fruit.rs. -/
def normalConfig : FruitConfig :=
  { id := "normal", category := FruitCategory.Normal, lifetime := 0,
    spawn_weight := 100, unlock_length := 0, immune_to_buffs := false,
    weight_growth := 0 }

/-- TrapFruit configuration, from src/fruits/trap/trap_fruit.rs
(TRAP_LIFETIME = 5.0 per backup/snake2d.rs). -/
def trapConfig : FruitConfig :=
  { id := "trap", category := FruitCategory.Trap, lifetime := 5,
    spawn_weight := 35, unlock_length := 0, immune_to_buffs := true,
    weight_growth := 0 }

/-- FreezeFruit configuration, from src/fruits/trap/freeze_fruit.rs. -/
def freezeConfig : FruitConfig :=
  { id := "freeze", category := FruitCategory.Trap, lifetime := 5,
    spawn_weight := 15, unlock_length := 0, immune_to_buffs := true,
    weight_growth := 0 }

/-- SlowFruit configuration, from src/fruits/trap/slow_fruit.rs. -/
def slowConfig : FruitConfig :=
  { id := "slow", category := FruitCategory.Trap, lifetime := 5,
    spawn_weight := 20, unlock_length := 0, immune_to_buffs := true,
    weight_growth := 0 }

/-- DizzyFruit configuration, from src/fruits/trap/dizzy_fruit.rs. -/
def dizzyConfig : FruitConfig :=
  { id := "dizzy", category := FruitCategory.Trap, lifetime := 5,
    spawn_weight := 15, unlock_length := 0, immune_to_buffs := true,
    weight_growth := 0 }

/-- SlimeFruit configuration, from src/fruits/trap/slime_fruit.rs. -/
def slimeConfig : FruitConfig :=
  { id := "slime", category := FruitCategory.Trap, lifetime := 5,
    spawn_weight := 15, unlock_length := 0, immune_to_buffs := true,
    weight_growth := 0 }

/-- BombFruit configuration, from src/fruits/trap/bomb_fruit.rs: base
weight 15, unlocked at length 4, weight growth 2 (its comment states
that one weight point is added per 2 cells of growth). -/
def bombConfig : FruitConfig :=
  { id := "bomb", category := FruitCategory.Trap, lifetime := 8,
    spawn_weight := 15, unlock_length := 4, immune_to_buffs := false,
    weight_growth := 2 }

/-- ShieldFruit configuration, from src/fruits/power/shield_fruit.rs
(SHIELD_FRUIT_LIFETIME = 8.0 per backup/snake2d.rs). -/
def shieldConfig : FruitConfig :=
  { id := "shield", category := FruitCategory.Power, lifetime := 8,
    spawn_weight := 30, unlock_length := 10, immune_to_buffs := false,
    weight_growth := 0 }

/-- SpeedFruit configuration, from src/fruits/power/speed_fruit.rs. -/
def speedConfig : FruitConfig :=
  { id := "speed", category := FruitCategory.Power, lifetime := 8,
    spawn_weight := 25, unlock_length := 10, immune_to_buffs := false,
    weight_growth := 0 }

/-- GhostFruit configuration, from src/fruits/power/ghost_fruit.rs. -/
def ghostConfig : FruitConfig :=
  { id := "ghost", category := FruitCategory.Power, lifetime := 8,
    spawn_weight := 20, unlock_length := 10, immune_to_buffs := false,
    weight_growth := 0 }

/-- ReverseFruit configuration, from src/fruits/power/reverse_fruit.rs. -/
def reverseConfig : FruitConfig :=
  { id := "reverse", category := FruitCategory.Power, lifetime := 5,
    spawn_weight := 15, unlock_length := 10, immune_to_buffs := false,
    weight_growth := 0 }

/-- HealFruit configuration, from src/fruits/power/heal_fruit.rs (it is
not registered by create_fruit_registry). -/
def healConfig : FruitConfig :=
  { id := "heal", category := FruitCategory.Power, lifetime := 10,
    spawn_weight := 5, unlock_length := 8, immune_to_buffs := false,
    weight_growth := 0 }

/-- SandwormFruit configuration, from src/fruits/power/sandworm_fruit.rs
(SANDWORM_FRUIT_LIFETIME = 3.0 per backup/snake2d.rs; the literal in the
snapshot omits the weight_growth field, rendered here as 0). -/
def sandwormConfig : FruitConfig :=
  { id := "sandworm", category := FruitCategory.Power, lifetime := 3,
    spawn_weight := 1, unlock_length := 15, immune_to_buffs := false,
    weight_growth := 0 }

/-- LuckyFruit configuration, from src/fruits/special/lucky_fruit.rs
(LUCKY_LIFETIME = 6.0 per backup/snake2d.rs; the literal in the snapshot
omits the weight_growth field, rendered here as 0). -/
def luckyConfig : FruitConfig :=
  { id := "lucky", category := FruitCategory.Special, lifetime := 6,
    spawn_weight := 100, unlock_length := 0, immune_to_buffs := false,
    weight_growth := 0 }

/-- SnakeEggFruit configuration, from src/fruits/special/snake_egg.rs. -/
def snakeEggConfig : FruitConfig :=
  { id := "snake_egg", category := FruitCategory.Special, lifetime := 15,
    spawn_weight := 50, unlock_length := 5, immune_to_buffs := false,
    weight_growth := 0 }

/-- Contents of create_fruit_registry, from src/fruits/mod.rs lines
74-99, in registration order.  BombFruit and HealFruit exist in the
codebase but are not registered there. -/
def registryConfigs : List FruitConfig :=
  [normalConfig,
   trapConfig, freezeConfig, slowConfig, dizzyConfig, slimeConfig,
   shieldConfig, speedConfig, ghostConfig, reverseConfig, sandwormConfig,
   luckyConfig, snakeEggConfig]

/-- FruitRegistry::get_config — lookup by identifier (identifiers are
unique across registrations, so the map lookup is a list search). -/
def get_config (reg : List FruitConfig) (id : String) :
    Option FruitConfig :=
  reg.find? (fun c => c.id = id)

/-- Identifiers recorded for a category (the by_category list built in
registration order by FruitRegistry::register). -/
def rbcIds (reg : List FruitConfig) (category : FruitCategory) :
    List String :=
  (reg.filter (fun c => c.category = category)).map (fun c => c.id)

/-- Unlocked candidates with the weights the code actually uses, from
random_by_category lines 79-89 of src/fruits/fruit_registry.rs: the
filter keeps identifiers whose unlock_length is at most the snake
length and pairs them with config.spawn_weight. -/
def rbcCandidates (reg : List FruitConfig) (category : FruitCategory)
    (snake_length : Nat) : List (String × Nat) :=
  (rbcIds reg category).filterMap (fun id =>
    match get_config reg id with
    | some config =>
      if config.unlock_length ≤ snake_length then
        some (id, config.spawn_weight)
      else none
    | none => none)

/-- Total weight of the candidates. -/
def rbcTotal (reg : List FruitConfig) (category : FruitCategory)
    (snake_length : Nat) : Nat :=
  ((rbcCandidates reg category snake_length).map (fun c => c.2)).sum

/-- Weighted-selection scan of random_by_category lines 101-107: return
the first candidate whose weight exceeds the remaining roll, otherwise
subtract and continue. -/
def selectByWeight : List (String × Nat) → Nat → Option String
  | [], _ => none
  | (id, w) :: rest, roll =>
    if roll < w then some id else selectByWeight rest (roll - w)

/-- FruitRegistry::random_by_category, from src/fruits/fruit_registry.rs
lines 70-111.  The RNG draw gen_range(0..total_weight) is modelled by
reducing an arbitrary roll modulo the total weight. -/
def random_by_category (reg : List FruitConfig)
    (category : FruitCategory) (snake_length roll : Nat) :
    Option String :=
  if (rbcIds reg category).isEmpty then none
  else if (rbcCandidates reg category snake_length).isEmpty then none
  else if rbcTotal reg category snake_length = 0 then none
  else
    match selectByWeight (rbcCandidates reg category snake_length)
        (roll % rbcTotal reg category snake_length) with
    | some id => some id
    | none => (rbcCandidates reg category snake_length).head?.map
        (fun c => c.1)

/-- Modelled from the spec: the effective weight that section 4.6 of the
specification (and the weight_growth field documentation in
src/fruits/fruit_trait.rs) prescribes for a candidate — base weight
plus floor((entity_length - unlock_length) / weight_growth) when
weight_growth is positive, base weight otherwise. -/
def effectiveWeightSpec (c : FruitConfig) (entity_length : Nat) : Nat :=
  if 0 < c.weight_growth then
    c.spawn_weight + (entity_length - c.unlock_length) / c.weight_growth
  else c.spawn_weight

/-- Result triple of one call of the fixed-timestep loop: left-over
accumulated time, number of tick durations subtracted, and number of
simulation steps performed. -/
structure SchedResult where
  acc : ℚ
  ticksConsumed : Nat
  steps : Nat
deriving DecidableEq, Repr

/-- Fixed-timestep loop of the main function, from src/snake2d_v2.rs
lines 466-480: while the accumulator holds a full tick and fewer than 5
steps have been counted, subtract one tick; leave the loop when the
game is not playing; skip the step count (continue) when frozen;
otherwise count and perform exactly one simulation step.  The world
mutations of a performed step are abstracted to the step count; the
fuel argument only bounds the recursion and any value at least
ceil(acc / tick) is exact for positive tick. -/
def fixedStepLoop : Nat → ℚ → ℚ → GameState → Bool → Nat → Nat →
    SchedResult
  | 0, acc, _, _, _, subs, steps => ⟨acc, subs, steps⟩
  | fuel + 1, acc, tick, st, frozen, subs, steps =>
    if tick ≤ acc ∧ steps < 5 then
      if st ≠ GameState.Playing then ⟨acc - tick, subs + 1, steps⟩
      else if frozen then
        fixedStepLoop fuel (acc - tick) tick st frozen (subs + 1) steps
      else
        fixedStepLoop fuel (acc - tick) tick st frozen (subs + 1) (steps + 1)
    else ⟨acc, subs, steps⟩

/-- One call of the fixed-timestep loop starting from zero counters. -/
def runFixedStepLoop (fuel : Nat) (acc tick : ℚ) (st : GameState)
    (frozen : Bool) : SchedResult :=
  fixedStepLoop fuel acc tick st frozen 0 0

/-- spawn_position, from src/game/spawn.rs lines 22-34: scan up to 100
random samples (given here as the explicit list of drawn positions) and
return the first one that collides with neither the given snake body
nor any existing consumable; none if every sample collides. -/
def spawn_position (snake : List IVec2) (fruits : List Fruit) :
    List IVec2 → Option IVec2
  | [] => none
  | p :: rest =>
    if p ∉ snake ∧ ∀ f ∈ fruits, ¬ f.pos = p then some p
    else spawn_position snake fruits rest

/-- Fruit-producing tail of a category rule in FruitSpawnManager::update,
from src/game/spawn_manager.rs lines 210-217: look for a free cell, ask
the registry for an identifier, and push the new consumable; any
failure leaves the list untouched. -/
def categorySpawnAttempt (reg : List FruitConfig)
    (category : FruitCategory) (snake_body : List IVec2)
    (fruits : List Fruit) (game_time : ℚ) (samples : List IVec2)
    (roll : Nat) : List Fruit :=
  match spawn_position snake_body fruits samples with
  | some pos =>
    match random_by_category reg category snake_body.length roll with
    | some type_id =>
      match get_config reg type_id with
      | some config =>
        fruits ++ [{ pos := pos, type_id := type_id,
                     spawn_time := game_time, lifetime := config.lifetime }]
      | none => fruits
    | none => fruits
  | none => fruits

/-- Damage animation phase, from src/types/damage.rs. -/
inductive DamagePhase where
  | None
  | Flashing
  | Crumbling
deriving DecidableEq, Repr

/-- Damage animation state, from src/types/damage.rs. -/
structure DamageState where
  active : Bool
  flash_timer : ℚ
  flash_count : Int
  crumble_timer : ℚ
  crumble_index : Nat
  tail_to_remove : List IVec2
  phase : DamagePhase
deriving DecidableEq, Repr

/-- DamageState::default. -/
def DamageState.init : DamageState :=
  { active := false, flash_timer := 0, flash_count := 0,
    crumble_timer := 0, crumble_index := 0, tail_to_remove := [],
    phase := DamagePhase.None }

/-- Consumption result, from src/fruits/fruit_trait.rs. -/
inductive ConsumeResult where
  | Continue
  | GameOver
  | ResetCombo
  | AddScore (n : Nat)
  | Multiple (rs : List ConsumeResult)
deriving Repr

/-- Mutable context handed to a consumable behavior (the FruitContext
fields read or written by the registered on_consume implementations;
particles, the spawn handles and the RNG handle are replaced by the
explicit draw record below). -/
structure ConsumeCtx where
  snake : List IVec2
  dir : IVec2
  buff : BuffState
  damage : DamageState
  score : Nat
  combo_count : Nat
deriving DecidableEq, Repr

/-- Random draws a single on_consume call can make: the 50 percent coin
of the lucky consumable, its positive-branch gen_range(0..5) draw and
its negative-branch gen_range(0..6) draw. -/
structure RngChoice where
  coin : Bool
  idx5 : Nat
  idx6 : Nat
deriving DecidableEq, Repr

/-- NormalFruit::on_consume — score 1 plus the combo bonus capped at 5. -/
def normalOnConsume (ctx : ConsumeCtx) : ConsumeCtx × ConsumeResult :=
  (ctx, ConsumeResult.AddScore (1 + min ctx.combo_count 5))

/-- TrapFruit::on_consume — immune: combo reset only; at length 3 or
below: game over; otherwise arm the damage animation over the last two
segments. -/
def trapOnConsume (ctx : ConsumeCtx) : ConsumeCtx × ConsumeResult :=
  if ctx.buff.has_immunity then (ctx, ConsumeResult.ResetCombo)
  else if ctx.snake.length ≤ 3 then (ctx, ConsumeResult.GameOver)
  else
    ({ ctx with damage :=
        { active := true, phase := DamagePhase.Flashing, flash_timer := 0,
          flash_count := 0, crumble_timer := 0, crumble_index := 0,
          tail_to_remove := [ctx.snake.getD (ctx.snake.length - 1) ⟨0, 0⟩,
                             ctx.snake.getD (ctx.snake.length - 2) ⟨0, 0⟩] } },
     ConsumeResult.ResetCombo)

/-- FreezeFruit::on_consume — gated on has_immunity. -/
def freezeOnConsume (ctx : ConsumeCtx) : ConsumeCtx × ConsumeResult :=
  if ctx.buff.has_immunity then (ctx, ConsumeResult.ResetCombo)
  else
    ({ ctx with buff := { ctx.buff with
        frozen := true, freeze_timer := FREEZE_DURATION } },
     ConsumeResult.ResetCombo)

/-- SlowFruit::on_consume — gated on has_immunity. -/
def slowOnConsume (ctx : ConsumeCtx) : ConsumeCtx × ConsumeResult :=
  if ctx.buff.has_immunity then (ctx, ConsumeResult.ResetCombo)
  else
    ({ ctx with buff := { ctx.buff with
        slow_active := true, slow_timer := SLOW_DURATION } },
     ConsumeResult.ResetCombo)

/-- DizzyFruit::on_consume — gated on has_immunity. -/
def dizzyOnConsume (ctx : ConsumeCtx) : ConsumeCtx × ConsumeResult :=
  if ctx.buff.has_immunity then (ctx, ConsumeResult.ResetCombo)
  else
    ({ ctx with buff := { ctx.buff with
        dizzy_active := true, dizzy_timer := DIZZY_DURATION } },
     ConsumeResult.ResetCombo)

/-- SlimeFruit::on_consume — gated on has_immunity. -/
def slimeOnConsume (ctx : ConsumeCtx) : ConsumeCtx × ConsumeResult :=
  if ctx.buff.has_immunity then (ctx, ConsumeResult.ResetCombo)
  else
    ({ ctx with buff := { ctx.buff with
        slime_active := true, slime_timer := SLIME_DURATION } },
     ConsumeResult.ResetCombo)

/-- BombFruit::on_consume, from src/fruits/trap/bomb_fruit.rs lines
43-53 — immune: no effect; otherwise arm the in-body bomb. -/
def bombOnConsume (ctx : ConsumeCtx) : ConsumeCtx × ConsumeResult :=
  if ctx.buff.has_immunity then (ctx, ConsumeResult.Continue)
  else
    ({ ctx with buff := { ctx.buff with
        bomb_state := ctx.buff.bomb_state.activate } },
     ConsumeResult.ResetCombo)

/-- ShieldFruit::on_consume — unconditional. -/
def shieldOnConsume (ctx : ConsumeCtx) : ConsumeCtx × ConsumeResult :=
  ({ ctx with buff := { ctx.buff with
      shield_active := true, shield_timer := SHIELD_DURATION } },
   ConsumeResult.Continue)

/-- SpeedFruit::on_consume — unconditional. -/
def speedOnConsume (ctx : ConsumeCtx) : ConsumeCtx × ConsumeResult :=
  ({ ctx with buff := { ctx.buff with
      speed_active := true, speed_timer := SPEED_DURATION } },
   ConsumeResult.Continue)

/-- GhostFruit::on_consume — unconditional. -/
def ghostOnConsume (ctx : ConsumeCtx) : ConsumeCtx × ConsumeResult :=
  ({ ctx with buff := { ctx.buff with
      ghost_active := true, ghost_timer := GHOST_DURATION } },
   ConsumeResult.Continue)

/-- ReverseFruit::on_consume — reverse the body and recompute the
direction from the first two segments. -/
def reverseOnConsume (ctx : ConsumeCtx) : ConsumeCtx × ConsumeResult :=
  let snake := ctx.snake.reverse
  let dir :=
    if 1 < snake.length then
      let new_head := snake.getD 0 ⟨0, 0⟩
      let second := snake.getD 1 ⟨0, 0⟩
      ivec2 (new_head.x - second.x) (new_head.y - second.y)
    else ctx.dir
  ({ ctx with snake := snake, dir := dir }, ConsumeResult.Continue)

/-- SandwormFruit::on_consume, from src/fruits/power/sandworm_fruit.rs
lines 43-56 — start the transformation unconditionally, saving the
current body and direction. -/
def sandwormOnConsume (ctx : ConsumeCtx) : ConsumeCtx × ConsumeResult :=
  ({ ctx with buff := { ctx.buff with
      sandworm_active := true,
      sandworm_phase := SandwormPhase.Flashing,
      sandworm_phase_timer := 0,
      sandworm_transform_index := 0,
      sandworm_original_snake := ctx.snake,
      sandworm_original_dir := ctx.dir,
      sandworm_path := [],
      sandworm_index := 0,
      sandworm_tick := 0 } },
   ConsumeResult.Continue)

/-- HealFruit::on_consume — clear every debuff. -/
def healOnConsume (ctx : ConsumeCtx) : ConsumeCtx × ConsumeResult :=
  ({ ctx with buff := ctx.buff.clear_all_debuffs }, ConsumeResult.Continue)

/-- SnakeEggFruit::on_consume — score 5, no hatching. -/
def snakeEggOnConsume (ctx : ConsumeCtx) : ConsumeCtx × ConsumeResult :=
  ({ ctx with score := ctx.score + 5 }, ConsumeResult.AddScore 0)

/-- LuckyFruit::on_consume, from src/fruits/special/lucky_fruit.rs lines
73-157: a coin picks a positive draw over 5 outcomes or (immunity
permitting) a negative draw over 6 outcomes. -/
def luckyOnConsume (r : RngChoice) (ctx : ConsumeCtx) :
    ConsumeCtx × ConsumeResult :=
  if r.coin then
    match r.idx5 with
    | 0 =>
      ({ ctx with buff := { ctx.buff with
          shield_active := true, shield_timer := SHIELD_DURATION } },
       ConsumeResult.Continue)
    | 1 =>
      ({ ctx with buff := { ctx.buff with
          speed_active := true, speed_timer := SPEED_DURATION } },
       ConsumeResult.Continue)
    | 2 =>
      ({ ctx with buff := { ctx.buff with
          ghost_active := true, ghost_timer := GHOST_DURATION } },
       ConsumeResult.Continue)
    | 3 => ({ ctx with score := ctx.score + 10 }, ConsumeResult.Continue)
    | _ =>
      let snake := match ctx.snake.getLast? with
        | some tail => ctx.snake ++ [tail, tail, tail]
        | none => ctx.snake
      ({ ctx with snake := snake }, ConsumeResult.Continue)
  else
    if ctx.buff.has_immunity then (ctx, ConsumeResult.ResetCombo)
    else
      match r.idx6 with
      | 0 =>
        ({ ctx with buff := { ctx.buff with
            frozen := true, freeze_timer := FREEZE_DURATION } },
         ConsumeResult.ResetCombo)
      | 1 =>
        ({ ctx with buff := { ctx.buff with
            slow_active := true, slow_timer := SLOW_DURATION } },
         ConsumeResult.ResetCombo)
      | 2 =>
        ({ ctx with buff := { ctx.buff with
            dizzy_active := true, dizzy_timer := DIZZY_DURATION } },
         ConsumeResult.ResetCombo)
      | 3 =>
        ({ ctx with buff := { ctx.buff with
            slime_active := true, slime_timer := SLIME_DURATION } },
         ConsumeResult.ResetCombo)
      | 4 =>
        if 3 < ctx.snake.length then
          ({ ctx with damage := { ctx.damage with
              active := true, phase := DamagePhase.Flashing,
              flash_timer := 0, flash_count := 0,
              tail_to_remove :=
                [ctx.snake.getD (ctx.snake.length - 1) ⟨0, 0⟩,
                 ctx.snake.getD (ctx.snake.length - 2) ⟨0, 0⟩] } },
           ConsumeResult.ResetCombo)
        else (ctx, ConsumeResult.ResetCombo)
      | _ =>
        ({ ctx with buff := { ctx.buff with pending_ai_spawn := true } },
         ConsumeResult.ResetCombo)

/-- Registry dispatch of a consumption event: the behavior registered
for the identifier is invoked; the registry degrades unknown
identifiers to a no-op. -/
def onConsume (id : String) (r : RngChoice) (ctx : ConsumeCtx) :
    ConsumeCtx × ConsumeResult :=
  if id = "normal" then normalOnConsume ctx
  else if id = "trap" then trapOnConsume ctx
  else if id = "freeze" then freezeOnConsume ctx
  else if id = "slow" then slowOnConsume ctx
  else if id = "dizzy" then dizzyOnConsume ctx
  else if id = "slime" then slimeOnConsume ctx
  else if id = "bomb" then bombOnConsume ctx
  else if id = "shield" then shieldOnConsume ctx
  else if id = "speed" then speedOnConsume ctx
  else if id = "ghost" then ghostOnConsume ctx
  else if id = "reverse" then reverseOnConsume ctx
  else if id = "sandworm" then sandwormOnConsume ctx
  else if id = "heal" then healOnConsume ctx
  else if id = "lucky" then luckyOnConsume r ctx
  else if id = "snake_egg" then snakeEggOnConsume ctx
  else (ctx, ConsumeResult.Continue)

/-- A negative-effect flag of section 4.5 of the specification (frozen,
slow, dizzy, slime, or the armed hazard) is newly true in b2 relative
to b. -/
def negNewly (b b2 : BuffState) : Prop :=
  (b2.frozen = true ∧ b.frozen = false) ∨
  (b2.slow_active = true ∧ b.slow_active = false) ∨
  (b2.dizzy_active = true ∧ b.dizzy_active = false) ∨
  (b2.slime_active = true ∧ b.slime_active = false) ∨
  (b2.bomb_state.active = true ∧ b.bomb_state.active = false)

instance (b b2 : BuffState) : Decidable (negNewly b b2) := by
  unfold negNewly; infer_instance

/-- Pairing of each effect timer with its active flag: a positive timer
implies the flag is set. -/
def timersInvariant (b : BuffState) : Prop :=
  (0 < b.shield_timer → b.shield_active = true) ∧
  (0 < b.speed_timer → b.speed_active = true) ∧
  (0 < b.ghost_timer → b.ghost_active = true) ∧
  (0 < b.freeze_timer → b.frozen = true) ∧
  (0 < b.slow_timer → b.slow_active = true) ∧
  (0 < b.dizzy_timer → b.dizzy_active = true) ∧
  (0 < b.slime_timer → b.slime_active = true)

instance (b : BuffState) : Decidable (timersInvariant b) := by
  unfold timersInvariant; infer_instance

/-- Direction is one of the four unit vectors (the documented invariant
of the dir field in src/game/snake.rs). -/
def dirUnit (d : IVec2) : Prop :=
  d = ivec2 1 0 ∨ d = ivec2 (-1) 0 ∨ d = ivec2 0 1 ∨ d = ivec2 0 (-1)

instance (d : IVec2) : Decidable (dirUnit d) := by
  unfold dirUnit; infer_instance

/-- Concrete world used by the C1 scenario: the collapse animation of
the transformation is past its midpoint and the pre-transformation
snapshot holds a two-segment body. -/
def sandwormDoneWorld : WorldSlice := {
  state := GameState.Playing,
  snake := { body := [⟨-5, -5⟩], dir := ⟨0, 1⟩, prev_body := [] },
  buff := { BuffState.init with
            sandworm_active := true,
            sandworm_phase := SandwormPhase.Consuming,
            sandworm_collapse_progress := 1 / 2,
            sandworm_original_snake := [⟨3, 3⟩, ⟨2, 3⟩],
            sandworm_original_dir := ⟨1, 0⟩ },
  fruits := [], food := ⟨9, 9⟩, score := 7, game_time := 0 }

/-- Concrete ten-segment body used by the C5 scenario. -/
def bodyTen : List IVec2 :=
  [⟨0, 0⟩, ⟨1, 0⟩, ⟨2, 0⟩, ⟨3, 0⟩, ⟨4, 0⟩,
   ⟨5, 0⟩, ⟨6, 0⟩, ⟨7, 0⟩, ⟨8, 0⟩, ⟨9, 0⟩]

/-- Concrete start state of the C5 scenario: a freshly armed bomb inside
a ten-segment body while the game is running. -/
def bombTenWorld : BombFrame := {
  state := GameState.Playing,
  body := bodyTen,
  buff := { BuffState.init with
            bomb_state := BuffState.init.bomb_state.activate } }

/-- Four-cell loop body whose head faces its own tail cell; used by the
C3 scenario. -/
def loopBody : List IVec2 := [⟨5, 5⟩, ⟨5, 6⟩, ⟨6, 6⟩, ⟨6, 5⟩]

/-- Concrete four-segment world whose bomb is one interval away from
exploding at index 2; used by the C5 witness for the below-minimum
truncation rule. -/
def bombSmallWorld : BombFrame := {
  state := GameState.Playing,
  body := [⟨0, 0⟩, ⟨1, 0⟩, ⟨2, 0⟩, ⟨3, 0⟩],
  buff := { BuffState.init with
            bomb_state := { active := true, position := 1,
                            move_timer := 0, move_interval := 3 / 10 } } }

/-- AISnake::grow, from src/game/ai_snake.rs lines 111-113 — increments
the pending-growth counter. -/
def AISnake.grow (a : AISnake) : AISnake :=
  { a with grow_pending := a.grow_pending + 1 }

/-- The AI manager's consumable-effect application, from
src/game/ai_manager.rs lines 195-230: when an autonomous snake's new
head lands on a consumable, the effect is applied by a hand-rolled
match on the configured category and identifier instead of the
registry's on_consume behavior.  The freeze arm writes the frozen flag
directly (line 208) with no has_immunity gate; slow, dizzy and slime go
through the gated activators; the plain trap is a no-op for autonomous
snakes; shield, speed and ghost use the unconditional activators; every
other identifier grows the snake. -/
def aiFruitEffect (reg : List FruitConfig) (type_id : String)
    (a : AISnake) : AISnake :=
  match get_config reg type_id with
  | none => a
  | some config =>
    match config.category with
    | FruitCategory.Normal => a.grow
    | FruitCategory.Trap =>
      if type_id = "freeze" then
        { a with buff_state := { a.buff_state with frozen := true } }
      else if type_id = "slow" then
        { a with buff_state := a.buff_state.activate_slow }
      else if type_id = "dizzy" then
        { a with buff_state := a.buff_state.activate_dizzy }
      else if type_id = "slime" then
        { a with buff_state := a.buff_state.activate_slime }
      else a
    | FruitCategory.Power =>
      if type_id = "shield" then
        { a with buff_state := a.buff_state.activate_shield }
      else if type_id = "speed" then
        { a with buff_state := a.buff_state.activate_speed }
      else if type_id = "ghost" then
        { a with buff_state := a.buff_state.activate_ghost }
      else a.grow
    | FruitCategory.Special => a.grow

/-- Autonomous snake carrying an active shield, so that has_immunity()
holds; scenario for the AI-manager consumption path. -/
def shieldedAI : AISnake :=
  { body := [⟨3, 3⟩, ⟨2, 3⟩, ⟨1, 3⟩], prev_body := [],
    dir := ⟨1, 0⟩,
    buff_state := { BuffState.init with
                    shield_active := true, shield_timer := 5 },
    grow_pending := 0 }

/-- Player snake whose candidate head lies on a cell of its own body
interior; scenario for the pass-through duplicate. -/
def passSnake : Snake :=
  { body := [⟨5, 5⟩, ⟨5, 6⟩, ⟨6, 6⟩, ⟨6, 5⟩, ⟨7, 5⟩], dir := ⟨1, 0⟩,
    prev_body := [] }

/-- Helper: the last entry of a list with at least two entries lies in
its tail. -/
lemma getLastD_mem_drop_one (l : List IVec2) (d : IVec2)
    (h : 2 ≤ l.length) : l.getLastD d ∈ l.drop 1 := by
  match l, h with
  | a :: b :: t, _ =>
    have hne : (b :: t) ≠ ([] : List IVec2) := by simp
    have h1 : (a :: b :: t).getLastD d = (b :: t).getLast hne := by
      rw [List.getLastD_eq_getLast?, List.getLast?_cons_cons,
          List.getLast?_eq_getLast _ hne]
      rfl
    rw [h1]
    exact List.getLast_mem hne

/-- Helper: in a duplicate-free nonempty list, the last entry does not
occur among the first length - 1 entries. -/
lemma getLastD_not_mem_take (l : List IVec2) (d : IVec2)
    (hne : l ≠ []) (hnd : l.Nodup) :
    l.getLastD d ∉ l.take (l.length - 1) := by
  have h1 : l.getLastD d = l.getLast hne := by
    rw [List.getLastD_eq_getLast?, List.getLast?_eq_getLast _ hne]
    rfl
  have h2 : l.take (l.length - 1) = l.dropLast := by
    rw [List.dropLast_eq_take]
  rw [h1, h2]
  have h3 : l.dropLast ++ [l.getLast hne] = l := List.dropLast_append_getLast hne
  intro hmem
  have : ¬ l.Nodup := by
    rw [← h3]
    intro hn
    have hdis := List.disjoint_of_nodup_append hn
    exact hdis hmem (by simp)
  exact this hnd

/-- Helper: a successful weighted-selection scan returns one of the
candidate identifiers. -/
lemma selectByWeight_mem (cands : List (String × Nat)) (roll : Nat)
    (id : String) (h : selectByWeight cands roll = some id) :
    ∃ w, (id, w) ∈ cands := by
  induction cands generalizing roll with
  | nil => simp [selectByWeight] at h
  | cons c rest ih =>
    rw [selectByWeight] at h
    by_cases hlt : roll < c.2
    · simp [hlt] at h
      exact ⟨c.2, by simp [← h]⟩
    · simp [hlt] at h
      obtain ⟨w, hw⟩ := ih (roll - c.2) h
      exact ⟨w, by simp [hw]⟩

/-- Helper: every candidate of random_by_category carries a registered
configuration whose unlock length is within the snake length, and its
weight is that configuration's base spawn weight. -/
lemma rbcCandidates_sound (reg : List FruitConfig)
    (category : FruitCategory) (len : Nat) (id : String) (w : Nat)
    (h : (id, w) ∈ rbcCandidates reg category len) :
    ∃ c, get_config reg id = some c ∧ c.unlock_length ≤ len ∧
      w = c.spawn_weight := by
  unfold rbcCandidates at h
  obtain ⟨srcid, _, hsrc⟩ := List.mem_filterMap.mp h
  rcases hcfg : get_config reg srcid with _ | c
  · rw [hcfg] at hsrc; simp at hsrc
  · rw [hcfg] at hsrc
    by_cases hu : c.unlock_length ≤ len
    · simp [hu] at hsrc
      obtain ⟨hid, hw⟩ := hsrc
      subst hid
      exact ⟨c, hcfg, hu, hw.symm⟩
    · simp [hu] at hsrc

/-- Helper: the timer component of the shared decay step equals
max 0 (t - dt) for an active effect, and hitting 0 clears the flag. -/
lemma decayPair_timer_eq (active : Bool) (t dt : ℚ)
    (ha : active = true) :
    (decayPair active t dt).2 = max 0 (t - dt) ∧
    ((decayPair active t dt).2 = 0 → (decayPair active t dt).1 = false) := by
  subst ha
  unfold decayPair
  by_cases hle : t - dt ≤ 0
  · simp [hle, max_eq_left hle]
  · push_neg at hle
    simp [not_le.mpr hle, max_eq_right (le_of_lt hle), ne_of_gt hle]

/-- Helper: the shared decay step preserves the flag-timer pairing. -/
lemma decayPair_inv (active : Bool) (t dt : ℚ)
    (h : 0 < t → active = true) :
    0 < (decayPair active t dt).2 → (decayPair active t dt).1 = true := by
  cases active with
  | false =>
    intro hp
    simp [decayPair] at hp
    exact h hp
  | true =>
    intro hp
    by_cases hle : t - dt ≤ 0
    · simp [decayPair, hle] at hp
    · simp [decayPair, hle]

/-- Helper: no negative-effect flag is newly true when the five flags
are unchanged. -/
lemma negNewly_of_fields (b b2 : BuffState)
    (h1 : b2.frozen = b.frozen) (h2 : b2.slow_active = b.slow_active)
    (h3 : b2.dizzy_active = b.dizzy_active)
    (h4 : b2.slime_active = b.slime_active)
    (h5 : b2.bomb_state.active = b.bomb_state.active) :
    ¬ negNewly b b2 := by
  intro hcon
  rcases hcon with ⟨u, v⟩ | ⟨u, v⟩ | ⟨u, v⟩ | ⟨u, v⟩ | ⟨u, v⟩
  · rw [h1, v] at u; exact Bool.noConfusion u
  · rw [h2, v] at u; exact Bool.noConfusion u
  · rw [h3, v] at u; exact Bool.noConfusion u
  · rw [h4, v] at u; exact Bool.noConfusion u
  · rw [h5, v] at u; exact Bool.noConfusion u

/-- Helper: no negative-effect flag is newly true when the five flags
end up false. -/
lemma negNewly_of_false (b b2 : BuffState)
    (h1 : b2.frozen = false) (h2 : b2.slow_active = false)
    (h3 : b2.dizzy_active = false) (h4 : b2.slime_active = false)
    (h5 : b2.bomb_state.active = false) :
    ¬ negNewly b b2 := by
  intro hcon
  rcases hcon with ⟨u, _⟩ | ⟨u, _⟩ | ⟨u, _⟩ | ⟨u, _⟩ | ⟨u, _⟩
  · rw [h1] at u; exact Bool.noConfusion u
  · rw [h2] at u; exact Bool.noConfusion u
  · rw [h3] at u; exact Bool.noConfusion u
  · rw [h4] at u; exact Bool.noConfusion u
  · rw [h5] at u; exact Bool.noConfusion u

/-- Helper: the wrapped candidate head differs from the head itself for
a unit direction and an in-grid head. -/
lemma clamp_candidate_ne_head (hd d : IVec2) (hdir : dirUnit d)
    (hg : inGrid hd) :
    ivec2 (clampWrap (hd.x + d.x) GRID_W) (clampWrap (hd.y + d.y) GRID_H)
      ≠ hd := by
  obtain ⟨hx0, hxW, hy0, hyH⟩ := hg
  intro he
  have hex : clampWrap (hd.x + d.x) GRID_W = hd.x := congrArg IVec2.x he
  have hey : clampWrap (hd.y + d.y) GRID_H = hd.y := congrArg IVec2.y he
  rcases hdir with h | h | h | h <;> subst h <;>
    simp only [ivec2, clampWrap, GRID_W, GRID_H] at hex hey hx0 hxW hy0 hyH <;>
    split_ifs at hex hey <;> omega

/-- Helper: the unwrapped candidate head differs from the head itself
for a unit direction. -/
lemma plain_candidate_ne_head (hd d : IVec2) (hdir : dirUnit d) :
    ivec2 (hd.x + d.x) (hd.y + d.y) ≠ hd := by
  intro he
  have hex : hd.x + d.x = hd.x := congrArg IVec2.x he
  have hey : hd.y + d.y = hd.y := congrArg IVec2.y he
  rcases hdir with h | h | h | h <;> subst h <;>
    simp only [ivec2] at hex hey <;> omega

/-- Helper: the step count of the fixed-timestep loop never exceeds 5. -/
lemma fixedStepLoop_steps_le (fuel : Nat) :
    ∀ (acc tick : ℚ) (st : GameState) (frozen : Bool) (subs steps : Nat),
      steps ≤ 5 →
      (fixedStepLoop fuel acc tick st frozen subs steps).steps ≤ 5 := by
  induction fuel with
  | zero => intro acc tick st frozen subs steps h; simpa [fixedStepLoop] using h
  | succ n ih =>
    intro acc tick st frozen subs steps h
    rw [fixedStepLoop]
    by_cases hc : tick ≤ acc ∧ steps < 5
    · rw [if_pos hc]
      by_cases hs : st ≠ GameState.Playing
      · rw [if_pos hs]; exact h
      · rw [if_neg hs]
        cases frozen
        · rw [if_neg (by simp)]
          exact ih _ _ _ _ _ _ (by omega)
        · rw [if_pos rfl]
          exact ih _ _ _ _ _ _ h
    · rw [if_neg hc]; exact h

/-- Helper: while playing and not frozen, the loop keeps its step count
equal to its subtraction count. -/
lemma fixedStepLoop_steps_eq_ticks (fuel : Nat) :
    ∀ (acc tick : ℚ) (n : Nat),
      (fixedStepLoop fuel acc tick GameState.Playing false n n).steps =
      (fixedStepLoop fuel acc tick GameState.Playing false n n).ticksConsumed := by
  induction fuel with
  | zero => intro acc tick n; simp [fixedStepLoop]
  | succ m ih =>
    intro acc tick n
    rw [fixedStepLoop]
    by_cases hc : tick ≤ acc ∧ n < 5
    · rw [if_pos hc, if_neg (by simp : ¬ GameState.Playing ≠ GameState.Playing),
          if_neg (by simp : ¬ (false = true))]
      exact ih (acc - tick) tick (n + 1)
    · rw [if_neg hc]

/-- Helper: while the game is not playing, the loop performs no step
and subtracts at most one tick duration. -/
lemma fixedStepLoop_nonplaying (fuel : Nat) (acc tick : ℚ)
    (st : GameState) (frozen : Bool) (hst : st ≠ GameState.Playing) :
    (fixedStepLoop fuel acc tick st frozen 0 0).steps = 0 ∧
    (fixedStepLoop fuel acc tick st frozen 0 0).ticksConsumed ≤ 1 := by
  cases fuel with
  | zero => simp [fixedStepLoop]
  | succ n =>
    rw [fixedStepLoop]
    by_cases hc : tick ≤ acc
    · simp [hc, hst]
    · simp [hc]

/-- C4 (corrected claim): the fixed-timestep loop performs at most 5
simulation steps per call; while the game is running and the entity is
not frozen, it performs exactly one simulation step per subtracted tick
duration; while the game is paused or over, it performs no step and
subtracts at most one tick duration before leaving the loop.  (The
original claim also capped the subtractions at 5 with one step each
even when frozen or paused; the counterexample refutes that.) -/
theorem C4_scheduler_amended :
    (∀ (fuel : Nat) (acc tick : ℚ) (st : GameState) (frozen : Bool),
       (runFixedStepLoop fuel acc tick st frozen).steps ≤ 5) ∧
    (∀ (fuel : Nat) (acc tick : ℚ),
       (runFixedStepLoop fuel acc tick GameState.Playing false).steps =
       (runFixedStepLoop fuel acc tick GameState.Playing false).ticksConsumed) ∧
    (∀ (fuel : Nat) (acc tick : ℚ) (frozen : Bool),
       (runFixedStepLoop fuel acc tick GameState.Paused frozen).steps = 0 ∧
       (runFixedStepLoop fuel acc tick GameState.Paused frozen).ticksConsumed ≤ 1) ∧
    (∀ (fuel : Nat) (acc tick : ℚ) (frozen : Bool),
       (runFixedStepLoop fuel acc tick GameState.GameOver frozen).steps = 0 ∧
       (runFixedStepLoop fuel acc tick GameState.GameOver frozen).ticksConsumed ≤ 1) := by
  refine ⟨?_, ?_, ?_, ?_⟩
  · intro fuel acc tick st frozen
    exact fixedStepLoop_steps_le fuel acc tick st frozen 0 0 (by omega)
  · intro fuel acc tick
    exact fixedStepLoop_steps_eq_ticks fuel acc tick 0
  · intro fuel acc tick frozen
    exact fixedStepLoop_nonplaying fuel acc tick GameState.Paused frozen
      (by simp)
  · intro fuel acc tick frozen
    exact fixedStepLoop_nonplaying fuel acc tick GameState.GameOver frozen
      (by simp)

/-- C4 counterexample: with the entity frozen, a single call of the
loop with 6 tick durations of accumulated time subtracts all 6 tick
durations (more than the claimed cap of 5) while performing 0
simulation steps (not one per subtracted tick). -/
theorem C4_frozen_overdraw_counterexample :
    runFixedStepLoop 8 6 1 GameState.Playing true =
      { acc := 0, ticksConsumed := 6, steps := 0 } := by
  norm_num [runFixedStepLoop, fixedStepLoop]

/-- C2 (code bug evidence): at the failing input — a registry holding
the repository's own TrapFruit and BombFruit configurations, category
Trap, entity length 10 — random_by_category weights the bomb candidate
by its base spawn weight 15, whereas the effective-weight formula that
the weight_growth field documents (and that the specification states)
gives 15 + (10 - 4) / 2 = 18.  Moreover every configuration actually
registered by create_fruit_registry carries weight_growth 0, so the
selection code never consults the field at all. -/
theorem C2_weight_growth_unused :
    rbcCandidates [trapConfig, bombConfig] FruitCategory.Trap 10 =
      [("trap", 35), ("bomb", 15)] ∧
    effectiveWeightSpec bombConfig 10 = 18 ∧
    (15 : Nat) ≠ 18 ∧
    registryConfigs.all (fun c => c.weight_growth == 0) = true := by
  refine ⟨by decide, by decide, by decide, by decide⟩

/-- C9 (confirmed): random_by_category never returns an identifier
whose unlock length exceeds the querying snake length, and it returns
none when no registered identifier of the category qualifies or the
total weight of the qualifying candidates is 0. -/
theorem C9_unlock_gating :
    (∀ (reg : List FruitConfig) (category : FruitCategory)
       (len roll : Nat) (id : String),
       random_by_category reg category len roll = some id →
       ∃ c, get_config reg id = some c ∧ c.unlock_length ≤ len) ∧
    (∀ (reg : List FruitConfig) (category : FruitCategory)
       (len roll : Nat),
       rbcCandidates reg category len = [] →
       random_by_category reg category len roll = none) ∧
    (∀ (reg : List FruitConfig) (category : FruitCategory)
       (len roll : Nat),
       rbcTotal reg category len = 0 →
       random_by_category reg category len roll = none) := by
  refine ⟨?_, ?_, ?_⟩
  · intro reg category len roll id h
    unfold random_by_category at h
    split_ifs at h with h1 h2 h3
    rcases hsel : selectByWeight (rbcCandidates reg category len)
        (roll % rbcTotal reg category len) with _ | id2
    · rw [hsel] at h
      rcases hhead : (rbcCandidates reg category len).head? with _ | p
      · rw [hhead] at h; simp at h
      · rw [hhead] at h
        simp at h
        have hmem : p ∈ rbcCandidates reg category len :=
          List.mem_of_mem_head? hhead
        obtain ⟨c, hc, hu, _⟩ :=
          rbcCandidates_sound reg category len p.1 p.2 hmem
        rw [h] at hc
        exact ⟨c, hc, hu⟩
    · rw [hsel] at h
      simp at h
      obtain ⟨w, hmem⟩ := selectByWeight_mem _ _ _ hsel
      obtain ⟨c, hc, hu, _⟩ :=
        rbcCandidates_sound reg category len id2 w hmem
      rw [h] at hc
      exact ⟨c, hc, hu⟩
  · intro reg category len roll h
    simp [random_by_category, h]
  · intro reg category len roll h
    simp [random_by_category, h]

/-- C9 witness: with only the bomb configuration registered, a snake of
length 10 draws the bomb identifier, whose unlock length 4 is within
10; and a snake of length 3 (below the unlock length) has no qualifying
candidate, so the draw returns none. -/
theorem C9_unlock_gating_witness :
    (∃ c, get_config [bombConfig] "bomb" = some c ∧ c.unlock_length ≤ 10) ∧
    random_by_category [bombConfig] FruitCategory.Trap 3 0 = none := by
  constructor
  · exact C9_unlock_gating.1 [bombConfig] FruitCategory.Trap 10 0 "bomb"
      (by decide)
  · exact C9_unlock_gating.2.1 [bombConfig] FruitCategory.Trap 3 0 (by decide)

/-- C8 counterexample: the spawn search receives only the player body
and the consumable list, so with the player at (0, 0) and an autonomous
entity occupying (1, 1) the single sample (1, 1) is accepted — the
spawned position lands on an autonomous entity body cell, contradicting
the claimed disjointness from every entity body. -/
theorem C8_spawn_ai_overlap_counterexample :
    spawn_position [⟨0, 0⟩] [] [⟨1, 1⟩] = some ⟨1, 1⟩ ∧
    (⟨1, 1⟩ : IVec2) ∈ ([⟨1, 1⟩, ⟨1, 2⟩, ⟨1, 3⟩] : List IVec2) := by
  refine ⟨by decide, by decide⟩

/-- C8 (corrected claim): a successfully spawned consumable position is
disjoint from every cell of the body handed to the search — the main
loop passes only the player body — and from every existing consumable
position; when every one of the up-to-100 samples collides, the search
returns none and the spawn cycle is skipped with the consumable list
untouched.  (The original claim also asserted disjointness from
autonomous entity bodies, which the code never checks.) -/
theorem C8_spawn_validity_amended :
    (∀ (snake : List IVec2) (fruits : List Fruit) (samples : List IVec2)
       (p : IVec2),
       spawn_position snake fruits samples = some p →
       p ∉ snake ∧ ∀ f ∈ fruits, ¬ f.pos = p) ∧
    (∀ (reg : List FruitConfig) (category : FruitCategory)
       (snake : List IVec2) (fruits : List Fruit) (t : ℚ)
       (samples : List IVec2) (roll : Nat),
       spawn_position snake fruits samples = none →
       categorySpawnAttempt reg category snake fruits t samples roll =
         fruits) ∧
    (∀ (snake : List IVec2) (fruits : List Fruit) (samples : List IVec2),
       (∀ p ∈ samples, p ∈ snake ∨ ∃ f ∈ fruits, f.pos = p) →
       spawn_position snake fruits samples = none) := by
  refine ⟨?_, ?_, ?_⟩
  · intro snake fruits samples
    induction samples with
    | nil => intro p h; simp [spawn_position] at h
    | cons q rest ih =>
      intro p h
      rw [spawn_position] at h
      by_cases hq : q ∉ snake ∧ ∀ f ∈ fruits, ¬ f.pos = q
      · rw [if_pos hq] at h
        obtain rfl : q = p := by simpa using h
        exact hq
      · rw [if_neg hq] at h
        exact ih p h
  · intro reg category snake fruits t samples roll h
    unfold categorySpawnAttempt
    rw [h]
  · intro snake fruits samples h
    induction samples with
    | nil => simp [spawn_position]
    | cons q rest ih =>
      rw [spawn_position]
      have hq : ¬ (q ∉ snake ∧ ∀ f ∈ fruits, ¬ f.pos = q) := by
        rcases h q (by simp) with hs | ⟨f, hf, hp⟩
        · intro hcon; exact hcon.1 hs
        · intro hcon; exact hcon.2 f hf hp
      rw [if_neg hq]
      exact ih (fun p hp => h p (by simp [hp]))

/-- C8 witness: the amended soundness applied at a concrete successful
spawn, and the skip behavior applied at a concrete exhausted search. -/
theorem C8_spawn_validity_witness :
    ((⟨2, 2⟩ : IVec2) ∉ ([⟨0, 0⟩] : List IVec2) ∧
     ∀ f ∈ ([] : List Fruit), ¬ f.pos = ⟨2, 2⟩) ∧
    categorySpawnAttempt registryConfigs FruitCategory.Trap [⟨0, 0⟩] []
      0 [⟨0, 0⟩] 0 = [] := by
  constructor
  · exact C8_spawn_validity_amended.1 [⟨0, 0⟩] [] [⟨2, 2⟩] ⟨2, 2⟩ (by decide)
  · exact C8_spawn_validity_amended.2.1 registryConfigs FruitCategory.Trap
      [⟨0, 0⟩] [] 0 [⟨0, 0⟩] 0 (by decide)

/-- C10 counterexample: on the tick in which ordinary food is consumed
the player moves and then grows; growth appends a copy of the tail
cell, so the body ends the tick with a duplicated coordinate — the
fresh snake moving right onto food ends with (15, 12) twice. -/
theorem C10_grow_duplicate_counterexample :
    (Snake.new.move_forward false false).2 =
      MoveResult.Normal (ivec2 17 12) ∧
    ((Snake.new.move_forward false false).1.grow).body =
      [⟨17, 12⟩, ⟨16, 12⟩, ⟨15, 12⟩, ⟨15, 12⟩] ∧
    ¬ ((Snake.new.move_forward false false).1.grow).body.Nodup := by
  refine ⟨by decide, by decide, by decide⟩

/-- C10 (corrected claim): outside the transformation phases a
successful move made with the can-pass-through derivation false
preserves pairwise distinctness of the body (for a duplicate-free body,
a unit direction and an in-grid head); when the derivation is true
(shield, transformation or ghost) the self-check of the move is
skipped, so a successful move can place the head on a cell the body
still occupies and the tick ends with a duplicated coordinate; and on
the tick in which ordinary food is consumed the subsequent growth
appends a copy of the tail cell, so the body is not pairwise distinct —
its last two entries coincide — while dropping that final copy leaves a
duplicate-free list. -/
theorem C10_distinctness_amended :
    (∀ (s : Snake) (wrap : Bool) (s2 : Snake) (nh : IVec2),
      s.body ≠ [] → s.body.Nodup → dirUnit s.dir → inGrid s.headPos →
      s.move_forward wrap false = (s2, MoveResult.Normal nh) →
      s2.body.Nodup ∧ ¬ (s2.grow).body.Nodup ∧
        ((s2.grow).body.dropLast).Nodup) ∧
    passSnake.body.Nodup ∧
    (passSnake.move_forward false true).2 = MoveResult.Normal (ivec2 6 5) ∧
    ¬ ((passSnake.move_forward false true).1.body).Nodup := by
  refine ⟨?_, by decide, by decide, by decide⟩
  intro s wrap s2 nh hbne hnd hdir hg hmv
  have hbody : s2.body = (nh :: s.body).dropLast ∧ nh ∉ s.body.drop 1 ∧
      nh ≠ s.headPos := by
    unfold Snake.move_forward at hmv
    simp only [Snake.headPos] at hmv
    split_ifs at hmv with hA hB hC hD
    · exact absurd (congrArg Prod.snd hmv) (by simp)
    · rw [Prod.ext_iff] at hmv
      obtain ⟨hfst, hsnd⟩ := hmv
      simp only [MoveResult.Normal.injEq] at hsnd
      have hmem : nh ∉ s.body.drop 1 := by
        rw [← hsnd]
        intro hcon
        exact hB ⟨trivial, hcon⟩
      refine ⟨?_, hmem, ?_⟩
      · rw [← hsnd]
        exact (congrArg Snake.body hfst).symm
      · rw [← hsnd]
        exact clamp_candidate_ne_head s.headPos s.dir hdir hg
    · exact absurd (congrArg Prod.snd hmv) (by simp)
    · exact absurd (congrArg Prod.snd hmv) (by simp)
    · rw [Prod.ext_iff] at hmv
      obtain ⟨hfst, hsnd⟩ := hmv
      simp only [MoveResult.Normal.injEq] at hsnd
      have hmem : nh ∉ s.body.drop 1 := by
        rw [← hsnd]
        intro hcon
        exact hD ⟨trivial, hcon⟩
      refine ⟨?_, hmem, ?_⟩
      · rw [← hsnd]
        exact (congrArg Snake.body hfst).symm
      · rw [← hsnd]
        exact plain_candidate_ne_head s.headPos s.dir hdir
  obtain ⟨hb, hdrop, hne⟩ := hbody
  have hnodup2 : s2.body.Nodup := by
    rw [hb]
    cases hcase : s.body with
    | nil => simp
    | cons a t =>
      rw [List.dropLast_cons_of_ne_nil (by simp)]
      refine List.Nodup.cons ?_ ?_
      · intro hm
        have hsub : s.body.dropLast ⊆ s.body := List.dropLast_subset _
        have hmb : nh ∈ s.body := hsub (by rw [hcase]; exact hm)
        rw [hcase] at hmb
        rcases List.mem_cons.mp hmb with he | ht
        · have : s.headPos = a := by simp [Snake.headPos, hcase]
          exact hne (by rw [this, he])
        · exact hdrop (by rw [hcase]; simpa using ht)
      · exact List.Nodup.sublist (List.dropLast_sublist _)
          (by rw [← hcase]; exact hnd)
  have hcons : ∃ rest, s2.body = nh :: rest := by
    rw [hb]
    rcases hbody2 : s.body with _ | ⟨a, t⟩
    · exact absurd hbody2 hbne
    · exact ⟨(a :: t).dropLast,
        by rw [List.dropLast_cons_of_ne_nil (by simp)]⟩
  obtain ⟨rest, hrest⟩ := hcons
  have hne2 : s2.body ≠ [] := by rw [hrest]; simp
  have hgrow : (s2.grow).body = s2.body ++ [s2.body.getLast hne2] := by
    unfold Snake.grow
    rw [List.getLast?_eq_getLast _ hne2]
  refine ⟨hnodup2, ?_, ?_⟩
  · rw [hgrow]
    intro hcon
    have hdis := List.disjoint_of_nodup_append hcon
    exact hdis (List.getLast_mem hne2) (by simp)
  · rw [hgrow, List.dropLast_concat]
    exact hnodup2

/-- C10 witness: the preservation part of the amended statement applied
at the fresh snake moving right with wrapping off. -/
theorem C10_distinctness_witness :
    ({ body := [⟨17, 12⟩, ⟨16, 12⟩, ⟨15, 12⟩], dir := ⟨1, 0⟩,
       prev_body := [⟨16, 12⟩, ⟨15, 12⟩, ⟨14, 12⟩] } : Snake).body.Nodup ∧
    ¬ (({ body := [⟨17, 12⟩, ⟨16, 12⟩, ⟨15, 12⟩], dir := ⟨1, 0⟩,
          prev_body := [⟨16, 12⟩, ⟨15, 12⟩, ⟨14, 12⟩] } : Snake).grow).body.Nodup ∧
    ((({ body := [⟨17, 12⟩, ⟨16, 12⟩, ⟨15, 12⟩], dir := ⟨1, 0⟩,
         prev_body := [⟨16, 12⟩, ⟨15, 12⟩, ⟨14, 12⟩] } : Snake).grow).body.dropLast).Nodup :=
  C10_distinctness_amended.1 Snake.new false
    { body := [⟨17, 12⟩, ⟨16, 12⟩, ⟨15, 12⟩], dir := ⟨1, 0⟩,
      prev_body := [⟨16, 12⟩, ⟨15, 12⟩, ⟨14, 12⟩] }
    (ivec2 17 12) (by decide) (by decide) (by decide) (by decide) (by decide)

/-- C3 counterexample: a player snake looping a 2-by-2 block with its
candidate head on its own tail cell is reported as a Self Collision by
Snake::move_forward (whose self-check skips only the head, not the
tail), not as a successful normal move as the claim states. -/
theorem C3_tail_move_counterexample :
    (({ body := loopBody, dir := ⟨1, 0⟩, prev_body := [] } : Snake).move_forward
        false false).2 = MoveResult.SelfCollision ∧
    (({ body := loopBody, dir := ⟨1, 0⟩, prev_body := [] } : Snake).move_forward
        false false).2 ≠ MoveResult.Normal (ivec2 6 5) := by
  refine ⟨by decide, by decide⟩

/-- C3 (corrected claim): the two movement implementations disagree.
The player snake checks the candidate head against its body with only
the head excluded, so a candidate equal to the current tail cell is a
Self Collision; the autonomous snake checks against its body with the
tail excluded, so the same move succeeds as a normal move. -/
theorem C3_tail_exclusion_amended :
    (∀ s : Snake, 2 ≤ s.body.length →
       inGrid (IVec2.add s.headPos s.dir) →
       IVec2.add s.headPos s.dir = s.body.getLastD ⟨0, 0⟩ →
       (s.move_forward false false).2 = MoveResult.SelfCollision) ∧
    (∀ a : AISnake, a.buff_state.frozen = false → a.body ≠ [] →
       a.body.Nodup →
       inGrid (IVec2.add (a.body.headD ⟨0, 0⟩) a.dir) →
       IVec2.add (a.body.headD ⟨0, 0⟩) a.dir = a.body.getLastD ⟨0, 0⟩ →
       (a.move_forward false).2 =
         AIMoveResult.Normal (IVec2.add (a.body.headD ⟨0, 0⟩) a.dir)) := by
  constructor
  · intro s h2 hgrid heq
    have hmem : ivec2 (s.headPos.x + s.dir.x) (s.headPos.y + s.dir.y) ∈
        s.body.drop 1 := by
      have : IVec2.add s.headPos s.dir =
          ivec2 (s.headPos.x + s.dir.x) (s.headPos.y + s.dir.y) := rfl
      rw [← this, heq]
      exact getLastD_mem_drop_one s.body ⟨0, 0⟩ h2
    obtain ⟨hx0, hxW, hy0, hyH⟩ := hgrid
    unfold Snake.move_forward
    simp only [Snake.headPos]
    rw [if_neg (by simp)]
    rw [if_neg (by push_neg; exact ⟨hx0, hxW, hy0, hyH⟩)]
    rw [if_pos ⟨trivial, hmem⟩]
  · intro a hfr hne hnd hgrid heq
    have hnotmem : IVec2.add (a.body.headD ⟨0, 0⟩) a.dir ∉
        a.body.take (a.body.length - 1) := by
      rw [heq]
      exact getLastD_not_mem_take a.body ⟨0, 0⟩ hne hnd
    obtain ⟨hx0, hxW, hy0, hyH⟩ := hgrid
    unfold AISnake.move_forward AISnake.moveCore
    rw [if_neg (by simp [hfr])]
    rw [if_neg (by simp)]
    rw [if_neg (by push_neg; exact ⟨hx0, hxW, hy0, hyH⟩)]
    rw [if_neg (by simpa using hnotmem)]
    by_cases hgp : 0 < a.grow_pending
    · rw [if_pos hgp]
    · rw [if_neg hgp]

/-- C3 witness: the amended statement applied at the 2-by-2 loop bodies
of the player and of an autonomous snake. -/
theorem C3_tail_exclusion_witness :
    (({ body := loopBody, dir := ⟨1, 0⟩, prev_body := [] } : Snake).move_forward
        false false).2 = MoveResult.SelfCollision ∧
    (({ body := loopBody, prev_body := [], dir := ⟨1, 0⟩,
        buff_state := BuffState.init, grow_pending := 0 } : AISnake).move_forward
        false).2 = AIMoveResult.Normal (IVec2.add
          (loopBody.headD ⟨0, 0⟩) ⟨1, 0⟩) := by
  constructor
  · exact C3_tail_exclusion_amended.1
      { body := loopBody, dir := ⟨1, 0⟩, prev_body := [] }
      (by decide) (by decide) (by decide)
  · exact C3_tail_exclusion_amended.2
      { body := loopBody, prev_body := [], dir := ⟨1, 0⟩,
        buff_state := BuffState.init, grow_pending := 0 }
      (by decide) (by decide) (by decide) (by decide) (by decide)

/-- C1 counterexample: completing the collapse (phase Consuming,
progress reaching 1 during the frame) restores the body to the saved
snapshot, but the top-level game state remains Playing — the running
state — rather than transitioning to any victory state; the GameState
enum has no victory variant at all. -/
theorem C1_no_victory_counterexample :
    (worldSandwormFrame sandwormDoneWorld 1 ⟨7, 7⟩).snake.body =
      [⟨3, 3⟩, ⟨2, 3⟩] ∧
    (worldSandwormFrame sandwormDoneWorld 1 ⟨7, 7⟩).buff.sandworm_phase =
      SandwormPhase.None ∧
    (worldSandwormFrame sandwormDoneWorld 1 ⟨7, 7⟩).state =
      GameState.Playing := by
  norm_num [worldSandwormFrame, update_sandworm_mode, sandwormDoneWorld,
    BuffState.init]
  split
  · simp_all
  · norm_num

/-- C1 (corrected claim): when the game is running, the transformation
is in its final Consuming phase and the collapse progress reaches 1
during the frame, the entity body and direction are restored to the
pre-transformation snapshot, the transformation state is cleared, and a
100-point bonus is awarded — but the top-level game state stays
Playing; the code never transitions to a victory state (GameState has
only Playing, Paused and GameOver) and never signals a win. -/
theorem C1_transformation_completion_amended :
    ∀ (w : WorldSlice) (dt : ℚ) (freshFood : IVec2),
      w.state = GameState.Playing →
      w.buff.sandworm_phase = SandwormPhase.Consuming →
      1 ≤ w.buff.sandworm_collapse_progress + dt * (4 / 5) →
      (worldSandwormFrame w dt freshFood).snake.body =
        w.buff.sandworm_original_snake ∧
      (worldSandwormFrame w dt freshFood).snake.dir =
        w.buff.sandworm_original_dir ∧
      (worldSandwormFrame w dt freshFood).buff.sandworm_phase =
        SandwormPhase.None ∧
      (worldSandwormFrame w dt freshFood).buff.sandworm_active = false ∧
      (worldSandwormFrame w dt freshFood).state = GameState.Playing ∧
      (worldSandwormFrame w dt freshFood).score = w.score + 100 := by
  intro w dt freshFood hst hph hprog
  unfold worldSandwormFrame update_sandworm_mode
  rw [if_pos hst]
  simp only [hph]
  rw [if_neg (by simp)]
  rw [if_pos hprog]
  simp [hst]

/-- C1 witness: the amended statement applied at the concrete world in
the Consuming phase with progress one half and a one-second frame. -/
theorem C1_transformation_completion_witness :
    (worldSandwormFrame sandwormDoneWorld 1 ⟨7, 7⟩).snake.body =
      sandwormDoneWorld.buff.sandworm_original_snake ∧
    (worldSandwormFrame sandwormDoneWorld 1 ⟨7, 7⟩).snake.dir =
      sandwormDoneWorld.buff.sandworm_original_dir ∧
    (worldSandwormFrame sandwormDoneWorld 1 ⟨7, 7⟩).buff.sandworm_phase =
      SandwormPhase.None ∧
    (worldSandwormFrame sandwormDoneWorld 1 ⟨7, 7⟩).buff.sandworm_active =
      false ∧
    (worldSandwormFrame sandwormDoneWorld 1 ⟨7, 7⟩).state =
      GameState.Playing ∧
    (worldSandwormFrame sandwormDoneWorld 1 ⟨7, 7⟩).score =
      sandwormDoneWorld.score + 100 :=
  C1_transformation_completion_amended sandwormDoneWorld 1 ⟨7, 7⟩ rfl rfl
    (by norm_num [sandwormDoneWorld, BuffState.init])

/-- C5 (confirmed): consuming the hazard (bomb) consumable without
immunity arms the in-body hazard at position index 0; in the concrete
scenario of a ten-segment body, five fixed 0.3-second intervals advance
the index to 5 (half the body length), whereupon the body is truncated
to length 5, the Aftereffect sub-state becomes active and the game
continues; and whenever an explosion truncates the body below 3
segments the round ends immediately. -/
theorem C5_bomb_lifecycle :
    (∀ (r : RngChoice) (ctx : ConsumeCtx),
       ctx.buff.has_immunity = false →
       (onConsume "bomb" r ctx).1.buff.bomb_state.active = true ∧
       (onConsume "bomb" r ctx).1.buff.bomb_state.position = 0) ∧
    ((bombMainStep (bombMainStep (bombMainStep (bombMainStep (bombMainStep
        bombTenWorld (3 / 10)) (3 / 10)) (3 / 10)) (3 / 10)) (3 / 10)).body.length
        = 5 ∧
     (bombMainStep (bombMainStep (bombMainStep (bombMainStep (bombMainStep
        bombTenWorld (3 / 10)) (3 / 10)) (3 / 10)) (3 / 10)) (3 / 10)).buff.bomb_after_effect.active
        = true ∧
     (bombMainStep (bombMainStep (bombMainStep (bombMainStep (bombMainStep
        bombTenWorld (3 / 10)) (3 / 10)) (3 / 10)) (3 / 10)) (3 / 10)).state
        = GameState.Playing) ∧
    (∀ (w : BombFrame) (dt : ℚ) (p : Nat),
       (BombManager.update w.buff w.body dt).2.truncate_to = some p →
       (bombMainStep w dt).body.length < 3 →
       (bombMainStep w dt).state = GameState.GameOver) := by
  refine ⟨?_, ?_, ?_⟩
  · intro r ctx h
    have hd : onConsume "bomb" r ctx = bombOnConsume ctx := rfl
    rw [hd]
    unfold bombOnConsume
    rw [if_neg (by simp [h])]
    simp [BombState.activate]
  · norm_num [bombMainStep, BombManager.update, BuffState.update_bomb,
      BombState.should_explode, BombState.clear, BombState.activate,
      BombAfterEffect.activate, bombTenWorld, bodyTen, BuffState.init,
      BombState.init, BombAfterEffect.init]
  · intro w dt p hsome hlen
    unfold bombMainStep at hlen ⊢
    rw [hsome] at hlen ⊢
    simp only at hlen ⊢
    have hor : ((BombManager.update w.buff w.body dt).2.game_over = true ∨
        (List.take p w.body).length < 3) := Or.inr hlen
    simp [hor]
    intro _ h1 h2
    have hmin : min p w.body.length < 3 := by simpa using hlen
    exact absurd hmin (by omega)

/-- C5 witness: the arming part applied at a plain buff state, and the
below-minimum rule applied at the four-segment scenario world. -/
theorem C5_bomb_lifecycle_witness :
    ((onConsume "bomb" ⟨true, 0, 0⟩
        ⟨[⟨0, 0⟩], ⟨1, 0⟩, BuffState.init, DamageState.init, 0, 0⟩).1.buff.bomb_state.active
        = true ∧
     (onConsume "bomb" ⟨true, 0, 0⟩
        ⟨[⟨0, 0⟩], ⟨1, 0⟩, BuffState.init, DamageState.init, 0, 0⟩).1.buff.bomb_state.position
        = 0) ∧
    (bombMainStep bombSmallWorld (3 / 10)).state = GameState.GameOver := by
  constructor
  · exact C5_bomb_lifecycle.1 ⟨true, 0, 0⟩
      ⟨[⟨0, 0⟩], ⟨1, 0⟩, BuffState.init, DamageState.init, 0, 0⟩ (by decide)
  · refine C5_bomb_lifecycle.2.2 bombSmallWorld (3 / 10) 2 ?_ ?_
    · norm_num [BombManager.update, BuffState.update_bomb,
        BombState.should_explode, BombState.clear, BombAfterEffect.activate,
        bombSmallWorld, BuffState.init, BombAfterEffect.init]
    · norm_num [bombMainStep, BombManager.update, BuffState.update_bomb,
        BombState.should_explode, BombState.clear, BombAfterEffect.activate,
        bombSmallWorld, BuffState.init, BombAfterEffect.init]

/-- Helper: case analysis over the registry dispatch — a property of
the dispatch result follows from its holding for each registered
behavior and for the unknown-identifier no-op. -/
lemma onConsume_cases (P : ConsumeCtx × ConsumeResult → Prop)
    (id : String) (r : RngChoice) (ctx : ConsumeCtx)
    (hnormal : P (normalOnConsume ctx))
    (htrap : P (trapOnConsume ctx))
    (hfreeze : P (freezeOnConsume ctx))
    (hslow : P (slowOnConsume ctx))
    (hdizzy : P (dizzyOnConsume ctx))
    (hslime : P (slimeOnConsume ctx))
    (hbomb : P (bombOnConsume ctx))
    (hshield : P (shieldOnConsume ctx))
    (hspeed : P (speedOnConsume ctx))
    (hghost : P (ghostOnConsume ctx))
    (hreverse : P (reverseOnConsume ctx))
    (hsandworm : P (sandwormOnConsume ctx))
    (hheal : P (healOnConsume ctx))
    (hlucky : P (luckyOnConsume r ctx))
    (hegg : P (snakeEggOnConsume ctx))
    (hdefault : P (ctx, ConsumeResult.Continue)) :
    P (onConsume id r ctx) := by
  unfold onConsume
  by_cases h1 : id = "normal"
  · rw [if_pos h1]; exact hnormal
  rw [if_neg h1]
  by_cases h2 : id = "trap"
  · rw [if_pos h2]; exact htrap
  rw [if_neg h2]
  by_cases h3 : id = "freeze"
  · rw [if_pos h3]; exact hfreeze
  rw [if_neg h3]
  by_cases h4 : id = "slow"
  · rw [if_pos h4]; exact hslow
  rw [if_neg h4]
  by_cases h5 : id = "dizzy"
  · rw [if_pos h5]; exact hdizzy
  rw [if_neg h5]
  by_cases h6 : id = "slime"
  · rw [if_pos h6]; exact hslime
  rw [if_neg h6]
  by_cases h7 : id = "bomb"
  · rw [if_pos h7]; exact hbomb
  rw [if_neg h7]
  by_cases h8 : id = "shield"
  · rw [if_pos h8]; exact hshield
  rw [if_neg h8]
  by_cases h9 : id = "speed"
  · rw [if_pos h9]; exact hspeed
  rw [if_neg h9]
  by_cases h10 : id = "ghost"
  · rw [if_pos h10]; exact hghost
  rw [if_neg h10]
  by_cases h11 : id = "reverse"
  · rw [if_pos h11]; exact hreverse
  rw [if_neg h11]
  by_cases h12 : id = "sandworm"
  · rw [if_pos h12]; exact hsandworm
  rw [if_neg h12]
  by_cases h13 : id = "heal"
  · rw [if_pos h13]; exact hheal
  rw [if_neg h13]
  by_cases h14 : id = "lucky"
  · rw [if_pos h14]; exact hlucky
  rw [if_neg h14]
  by_cases h15 : id = "snake_egg"
  · rw [if_pos h15]; exact hegg
  rw [if_neg h15]
  exact hdefault

/-- C6 (confirmed): for every effect pair with the flag set and timer
t positive, a timer update with positive dt leaves the timer at
max 0 (t - dt) and clears the paired flag in the same update whenever
the timer reaches 0; and the invariant that a positive timer implies
its paired flag is preserved by the timer update, by every activation,
by the debuff clear, and by every registered consumption behavior. -/
theorem C6_timer_decay_invariant :
    (∀ (b : BuffState) (dt : ℚ), 0 < dt →
       (b.shield_active = true → 0 < b.shield_timer →
          (b.update dt).shield_timer = max 0 (b.shield_timer - dt) ∧
          ((b.update dt).shield_timer = 0 →
            (b.update dt).shield_active = false)) ∧
       (b.speed_active = true → 0 < b.speed_timer →
          (b.update dt).speed_timer = max 0 (b.speed_timer - dt) ∧
          ((b.update dt).speed_timer = 0 →
            (b.update dt).speed_active = false)) ∧
       (b.ghost_active = true → 0 < b.ghost_timer →
          (b.update dt).ghost_timer = max 0 (b.ghost_timer - dt) ∧
          ((b.update dt).ghost_timer = 0 →
            (b.update dt).ghost_active = false)) ∧
       (b.frozen = true → 0 < b.freeze_timer →
          (b.update dt).freeze_timer = max 0 (b.freeze_timer - dt) ∧
          ((b.update dt).freeze_timer = 0 → (b.update dt).frozen = false)) ∧
       (b.slow_active = true → 0 < b.slow_timer →
          (b.update dt).slow_timer = max 0 (b.slow_timer - dt) ∧
          ((b.update dt).slow_timer = 0 →
            (b.update dt).slow_active = false)) ∧
       (b.dizzy_active = true → 0 < b.dizzy_timer →
          (b.update dt).dizzy_timer = max 0 (b.dizzy_timer - dt) ∧
          ((b.update dt).dizzy_timer = 0 →
            (b.update dt).dizzy_active = false)) ∧
       (b.slime_active = true → 0 < b.slime_timer →
          (b.update dt).slime_timer = max 0 (b.slime_timer - dt) ∧
          ((b.update dt).slime_timer = 0 →
            (b.update dt).slime_active = false))) ∧
    (∀ (b : BuffState) (dt : ℚ), timersInvariant b →
       timersInvariant (b.update dt) ∧
       timersInvariant b.activate_shield ∧
       timersInvariant b.activate_speed ∧
       timersInvariant b.activate_ghost ∧
       timersInvariant b.activate_freeze ∧
       timersInvariant b.activate_slow ∧
       timersInvariant b.activate_dizzy ∧
       timersInvariant b.activate_slime ∧
       timersInvariant b.clear_all_debuffs) ∧
    (∀ (id : String) (r : RngChoice) (ctx : ConsumeCtx),
       timersInvariant ctx.buff →
       timersInvariant ((onConsume id r ctx).1.buff)) := by
  refine ⟨?_, ?_, ?_⟩
  · intro b dt _
    exact ⟨fun ha _ => decayPair_timer_eq b.shield_active b.shield_timer dt ha,
      fun ha _ => decayPair_timer_eq b.speed_active b.speed_timer dt ha,
      fun ha _ => decayPair_timer_eq b.ghost_active b.ghost_timer dt ha,
      fun ha _ => decayPair_timer_eq b.frozen b.freeze_timer dt ha,
      fun ha _ => decayPair_timer_eq b.slow_active b.slow_timer dt ha,
      fun ha _ => decayPair_timer_eq b.dizzy_active b.dizzy_timer dt ha,
      fun ha _ => decayPair_timer_eq b.slime_active b.slime_timer dt ha⟩
  · intro b dt hinv
    obtain ⟨i1, i2, i3, i4, i5, i6, i7⟩ := hinv
    refine ⟨?_, ?_, ?_, ?_, ?_, ?_, ?_, ?_, ?_⟩
    · exact ⟨decayPair_inv b.shield_active b.shield_timer dt i1,
        decayPair_inv b.speed_active b.speed_timer dt i2,
        decayPair_inv b.ghost_active b.ghost_timer dt i3,
        decayPair_inv b.frozen b.freeze_timer dt i4,
        decayPair_inv b.slow_active b.slow_timer dt i5,
        decayPair_inv b.dizzy_active b.dizzy_timer dt i6,
        decayPair_inv b.slime_active b.slime_timer dt i7⟩
    · exact ⟨fun _ => rfl, i2, i3, i4, i5, i6, i7⟩
    · exact ⟨i1, fun _ => rfl, i3, i4, i5, i6, i7⟩
    · exact ⟨i1, i2, fun _ => rfl, i4, i5, i6, i7⟩
    · unfold BuffState.activate_freeze
      split_ifs
      · exact ⟨i1, i2, i3, i4, i5, i6, i7⟩
      · exact ⟨i1, i2, i3, fun _ => rfl, i5, i6, i7⟩
    · unfold BuffState.activate_slow
      split_ifs
      · exact ⟨i1, i2, i3, i4, i5, i6, i7⟩
      · exact ⟨i1, i2, i3, i4, fun _ => rfl, i6, i7⟩
    · unfold BuffState.activate_dizzy
      split_ifs
      · exact ⟨i1, i2, i3, i4, i5, i6, i7⟩
      · exact ⟨i1, i2, i3, i4, i5, fun _ => rfl, i7⟩
    · unfold BuffState.activate_slime
      split_ifs
      · exact ⟨i1, i2, i3, i4, i5, i6, i7⟩
      · exact ⟨i1, i2, i3, i4, i5, i6, fun _ => rfl⟩
    · exact ⟨i1, i2, i3, fun h => absurd h (lt_irrefl 0),
        fun h => absurd h (lt_irrefl 0), fun h => absurd h (lt_irrefl 0),
        fun h => absurd h (lt_irrefl 0)⟩
  · intro id r ctx hinv
    obtain ⟨i1, i2, i3, i4, i5, i6, i7⟩ := hinv
    refine onConsume_cases (fun q => timersInvariant q.1.buff) id r ctx
      ?_ ?_ ?_ ?_ ?_ ?_ ?_ ?_ ?_ ?_ ?_ ?_ ?_ ?_ ?_ ?_
    · exact ⟨i1, i2, i3, i4, i5, i6, i7⟩
    · unfold trapOnConsume
      split_ifs <;> exact ⟨i1, i2, i3, i4, i5, i6, i7⟩
    · unfold freezeOnConsume
      split_ifs
      · exact ⟨i1, i2, i3, i4, i5, i6, i7⟩
      · exact ⟨i1, i2, i3, fun _ => rfl, i5, i6, i7⟩
    · unfold slowOnConsume
      split_ifs
      · exact ⟨i1, i2, i3, i4, i5, i6, i7⟩
      · exact ⟨i1, i2, i3, i4, fun _ => rfl, i6, i7⟩
    · unfold dizzyOnConsume
      split_ifs
      · exact ⟨i1, i2, i3, i4, i5, i6, i7⟩
      · exact ⟨i1, i2, i3, i4, i5, fun _ => rfl, i7⟩
    · unfold slimeOnConsume
      split_ifs
      · exact ⟨i1, i2, i3, i4, i5, i6, i7⟩
      · exact ⟨i1, i2, i3, i4, i5, i6, fun _ => rfl⟩
    · unfold bombOnConsume
      split_ifs <;> exact ⟨i1, i2, i3, i4, i5, i6, i7⟩
    · exact ⟨fun _ => rfl, i2, i3, i4, i5, i6, i7⟩
    · exact ⟨i1, fun _ => rfl, i3, i4, i5, i6, i7⟩
    · exact ⟨i1, i2, fun _ => rfl, i4, i5, i6, i7⟩
    · exact ⟨i1, i2, i3, i4, i5, i6, i7⟩
    · exact ⟨i1, i2, i3, i4, i5, i6, i7⟩
    · exact ⟨i1, i2, i3, fun h => absurd h (lt_irrefl 0),
        fun h => absurd h (lt_irrefl 0), fun h => absurd h (lt_irrefl 0),
        fun h => absurd h (lt_irrefl 0)⟩
    · unfold luckyOnConsume
      by_cases hc : r.coin = true
      · rw [if_pos hc]
        split
        · exact ⟨fun _ => rfl, i2, i3, i4, i5, i6, i7⟩
        · exact ⟨i1, fun _ => rfl, i3, i4, i5, i6, i7⟩
        · exact ⟨i1, i2, fun _ => rfl, i4, i5, i6, i7⟩
        · exact ⟨i1, i2, i3, i4, i5, i6, i7⟩
        · exact ⟨i1, i2, i3, i4, i5, i6, i7⟩
      · rw [if_neg hc]
        by_cases him : ctx.buff.has_immunity = true
        · rw [if_pos him]; exact ⟨i1, i2, i3, i4, i5, i6, i7⟩
        · rw [if_neg him]
          split
          · exact ⟨i1, i2, i3, fun _ => rfl, i5, i6, i7⟩
          · exact ⟨i1, i2, i3, i4, fun _ => rfl, i6, i7⟩
          · exact ⟨i1, i2, i3, i4, i5, fun _ => rfl, i7⟩
          · exact ⟨i1, i2, i3, i4, i5, i6, fun _ => rfl⟩
          · split_ifs <;> exact ⟨i1, i2, i3, i4, i5, i6, i7⟩
          · exact ⟨i1, i2, i3, i4, i5, i6, i7⟩
    · exact ⟨i1, i2, i3, i4, i5, i6, i7⟩
    · exact ⟨i1, i2, i3, i4, i5, i6, i7⟩

/-- C6 witness: the decay equation and the invariant preservation
applied at a buff state whose shield is active for 5 seconds, with a
2-second update. -/
theorem C6_timer_decay_witness :
    (({ BuffState.init with
        shield_active := true,
        shield_timer := 5 } : BuffState).update 2).shield_timer =
      max 0 (5 - 2) ∧
    timersInvariant
      (({ BuffState.init with
          shield_active := true,
          shield_timer := 5 } : BuffState).update 2) := by
  constructor
  · exact ((C6_timer_decay_invariant.1
      { BuffState.init with shield_active := true, shield_timer := 5 } 2
      (by norm_num)).1 rfl (by norm_num)).1
  · exact (C6_timer_decay_invariant.2.1
      { BuffState.init with shield_active := true, shield_timer := 5 } 2
      (by norm_num [timersInvariant, BuffState.init])).1

/-- C7 counterexample: the AI manager's consumption path (line 208 of
src/game/ai_manager.rs) sets the frozen flag directly, with no
has_immunity gate, so a shielded autonomous snake that eats the freeze
consumable has a negative-effect flag become newly true under immunity
— refuting the universal statement over every consumption event. -/
theorem C7_immunity_counterexample :
    shieldedAI.buff_state.has_immunity = true ∧
    shieldedAI.buff_state.frozen = false ∧
    (aiFruitEffect registryConfigs "freeze" shieldedAI).buff_state.frozen
      = true ∧
    negNewly shieldedAI.buff_state
      ((aiFruitEffect registryConfigs "freeze" shieldedAI).buff_state) := by
  refine ⟨by decide, by decide, by decide, by decide⟩

/-- C7 (corrected claim): for every consumption event dispatched through
the registry, if has_immunity() holds at the moment of consumption then
no negative-effect flag (frozen, slow, dizzy, slime, or the armed
hazard) becomes newly true, while the positive effects (shield, speed,
ghost) and the transformation trigger apply unconditionally; in the AI
manager's hand-rolled consumption path the slow, dizzy and slime arms
go through the gated activators and respect immunity, but its freeze
arm sets the frozen flag unconditionally, bypassing the gate. -/
theorem C7_immunity_gating_amended :
    ∀ (id : String) (r : RngChoice) (ctx : ConsumeCtx) (a : AISnake),
      (ctx.buff.has_immunity = true →
        ¬ negNewly ctx.buff ((onConsume id r ctx).1.buff)) ∧
      (onConsume "shield" r ctx).1.buff.shield_active = true ∧
      (onConsume "speed" r ctx).1.buff.speed_active = true ∧
      (onConsume "ghost" r ctx).1.buff.ghost_active = true ∧
      (onConsume "sandworm" r ctx).1.buff.sandworm_active = true ∧
      (onConsume "sandworm" r ctx).1.buff.sandworm_phase =
        SandwormPhase.Flashing ∧
      (a.buff_state.has_immunity = true →
        ¬ negNewly a.buff_state
            ((aiFruitEffect registryConfigs "slow" a).buff_state) ∧
        ¬ negNewly a.buff_state
            ((aiFruitEffect registryConfigs "dizzy" a).buff_state) ∧
        ¬ negNewly a.buff_state
            ((aiFruitEffect registryConfigs "slime" a).buff_state)) ∧
      (aiFruitEffect registryConfigs "freeze" a).buff_state.frozen
        = true := by
  intro id r ctx a
  refine ⟨?_, rfl, rfl, rfl, rfl, rfl, ?_, rfl⟩
  · intro him
    refine onConsume_cases (fun q => ¬ negNewly ctx.buff q.1.buff) id r ctx
      ?_ ?_ ?_ ?_ ?_ ?_ ?_ ?_ ?_ ?_ ?_ ?_ ?_ ?_ ?_ ?_
    · exact negNewly_of_fields _ _ rfl rfl rfl rfl rfl
    · unfold trapOnConsume
      rw [if_pos him]
      exact negNewly_of_fields _ _ rfl rfl rfl rfl rfl
    · unfold freezeOnConsume
      rw [if_pos him]
      exact negNewly_of_fields _ _ rfl rfl rfl rfl rfl
    · unfold slowOnConsume
      rw [if_pos him]
      exact negNewly_of_fields _ _ rfl rfl rfl rfl rfl
    · unfold dizzyOnConsume
      rw [if_pos him]
      exact negNewly_of_fields _ _ rfl rfl rfl rfl rfl
    · unfold slimeOnConsume
      rw [if_pos him]
      exact negNewly_of_fields _ _ rfl rfl rfl rfl rfl
    · unfold bombOnConsume
      rw [if_pos him]
      exact negNewly_of_fields _ _ rfl rfl rfl rfl rfl
    · exact negNewly_of_fields _ _ rfl rfl rfl rfl rfl
    · exact negNewly_of_fields _ _ rfl rfl rfl rfl rfl
    · exact negNewly_of_fields _ _ rfl rfl rfl rfl rfl
    · exact negNewly_of_fields _ _ rfl rfl rfl rfl rfl
    · exact negNewly_of_fields _ _ rfl rfl rfl rfl rfl
    · exact negNewly_of_false _ _ rfl rfl rfl rfl rfl
    · unfold luckyOnConsume
      by_cases hc : r.coin = true
      · rw [if_pos hc]
        split
        · exact negNewly_of_fields _ _ rfl rfl rfl rfl rfl
        · exact negNewly_of_fields _ _ rfl rfl rfl rfl rfl
        · exact negNewly_of_fields _ _ rfl rfl rfl rfl rfl
        · exact negNewly_of_fields _ _ rfl rfl rfl rfl rfl
        · exact negNewly_of_fields _ _ rfl rfl rfl rfl rfl
      · rw [if_neg hc, if_pos him]
        exact negNewly_of_fields _ _ rfl rfl rfl rfl rfl
    · exact negNewly_of_fields _ _ rfl rfl rfl rfl rfl
    · exact negNewly_of_fields _ _ rfl rfl rfl rfl rfl
  · intro him
    refine ⟨?_, ?_, ?_⟩
    · have hd : aiFruitEffect registryConfigs "slow" a =
          { a with buff_state := a.buff_state.activate_slow } := rfl
      rw [hd]
      unfold BuffState.activate_slow
      rw [if_pos him]
      exact negNewly_of_fields _ _ rfl rfl rfl rfl rfl
    · have hd : aiFruitEffect registryConfigs "dizzy" a =
          { a with buff_state := a.buff_state.activate_dizzy } := rfl
      rw [hd]
      unfold BuffState.activate_dizzy
      rw [if_pos him]
      exact negNewly_of_fields _ _ rfl rfl rfl rfl rfl
    · have hd : aiFruitEffect registryConfigs "slime" a =
          { a with buff_state := a.buff_state.activate_slime } := rfl
      rw [hd]
      unfold BuffState.activate_slime
      rw [if_pos him]
      exact negNewly_of_fields _ _ rfl rfl rfl rfl rfl

/-- C7 witness: the amended statement applied at a shielded (immune)
player context eating the freeze consumable and at a shielded
autonomous snake — the registry gate, an unconditional positive, the
gated AI slow arm and the ungated AI freeze arm. -/
theorem C7_immunity_gating_amended_witness :
    (({ BuffState.init with
        shield_active := true,
        shield_timer := 5 } : BuffState).has_immunity = true) ∧
    ¬ negNewly
      ({ BuffState.init with
         shield_active := true,
         shield_timer := 5 } : BuffState)
      ((onConsume "freeze" ⟨true, 0, 0⟩
        ⟨[⟨0, 0⟩], ⟨1, 0⟩,
         { BuffState.init with shield_active := true, shield_timer := 5 },
         DamageState.init, 0, 0⟩).1.buff) ∧
    (onConsume "shield" ⟨true, 0, 0⟩
      ⟨[⟨0, 0⟩], ⟨1, 0⟩, BuffState.init, DamageState.init, 0,
       0⟩).1.buff.shield_active = true ∧
    shieldedAI.buff_state.has_immunity = true ∧
    ¬ negNewly shieldedAI.buff_state
      ((aiFruitEffect registryConfigs "slow" shieldedAI).buff_state) ∧
    (aiFruitEffect registryConfigs "freeze"
      shieldedAI).buff_state.frozen = true := by
  refine ⟨by decide, ?_, ?_, by decide, ?_, ?_⟩
  · exact (C7_immunity_gating_amended "freeze" ⟨true, 0, 0⟩
      ⟨[⟨0, 0⟩], ⟨1, 0⟩,
       { BuffState.init with shield_active := true, shield_timer := 5 },
       DamageState.init, 0, 0⟩ shieldedAI).1 (by decide)
  · exact (C7_immunity_gating_amended "shield" ⟨true, 0, 0⟩
      ⟨[⟨0, 0⟩], ⟨1, 0⟩, BuffState.init, DamageState.init, 0, 0⟩
      shieldedAI).2.1
  · exact ((C7_immunity_gating_amended "slow" ⟨true, 0, 0⟩
      ⟨[⟨0, 0⟩], ⟨1, 0⟩, BuffState.init, DamageState.init, 0, 0⟩
      shieldedAI).2.2.2.2.2.2.1 (by decide)).1
  · exact (C7_immunity_gating_amended "freeze" ⟨true, 0, 0⟩
      ⟨[⟨0, 0⟩], ⟨1, 0⟩, BuffState.init, DamageState.init, 0, 0⟩
      shieldedAI).2.2.2.2.2.2.2

end Snake2D
